import Mathlib

/-!
Verification development for the Weaver multi-agent workflow engine.

The Python sources embedded here (shallowly, over `List Char` / `Int` /
association lists standing for Python strings, ints and dicts):

  * `mas_aider/services/evaluators/condition_evaluator.py`
      (class `ConditionEvaluator`, the regex-based evaluator)
  * `mas_aider/services/engines/state_machine_engine.py`
      (class `StateMachineEngine`)
  * `mas_aider/engines/langgraph_engine.py`
      (class `LangGraphEngine`)
  * `src/core/config_workflow.py` (class `ConfigWorkflow`)

Python exceptions are modelled with `Except`; `try/except` blocks are
modelled by matching on the `Except` value at exactly the places the
source catches.  Python's recursion limit is modelled by a fuel
parameter on the (mutually) recursive evaluator functions: running out
of fuel corresponds to `RecursionError`.

Python values that can appear in the dictionaries the engine
manipulates are modelled by `PyVal` (None, bool, int, str, list, dict).
Floats are modelled by rationals in the one place the evaluator can
produce them (`float(value_str)`); no claim exercises IEEE rounding.
-/

/-- Model of a Python value as stored in the engine's dictionaries:
`None`, `bool`, `int`, `str`, `list`, `dict` (string-keyed). -/
inductive PyVal where
  | vnone : PyVal
  | vbool : Bool → PyVal
  | vint : Int → PyVal
  | vstr : String → PyVal
  | vlist : List PyVal → PyVal
  | vdict : List (String × PyVal) → PyVal
deriving Repr

/-- A Python dictionary with string keys: an association list in which
the LAST binding of a key is the live one (so that `d ++ [(k, v)]`
models `d[k] = v`). -/
abbrev PyDict := List (String × PyVal)

/-- `d.get(k)` / `k in d`: the last binding of `k`, if any. -/
def dictGet (d : PyDict) (k : String) : Option PyVal :=
  match d with
  | [] => none
  | (k', v) :: rest =>
    match dictGet rest k with
    | some w => some w
    | none => if k' = k then some v else none

/-- `d[k] = v` (append; `dictGet` prefers later bindings). -/
def dictSet (d : PyDict) (k : String) (v : PyVal) : PyDict :=
  d ++ [(k, v)]

/-- `d.update(other)`: bind every key of `other` in `d`, in order. -/
def dictUpdate (d : PyDict) (other : PyDict) : PyDict :=
  other.foldl (fun acc kv => dictSet acc kv.1 kv.2) d

/-- Python truthiness (`bool(v)`). -/
def pyTruthy : PyVal → Bool
  | .vnone => false
  | .vbool b => b
  | .vint n => n ≠ 0
  | .vstr s => s ≠ ""
  | .vlist l => ¬ l.isEmpty
  | .vdict d => ¬ d.isEmpty

/-- Modelled Python exceptions. -/
inductive PyErr where
  | typeError : PyErr
  | attributeError : PyErr
  | recursionError : PyErr
deriving Repr, DecidableEq

/-- Python `\s` on ASCII input: space, tab, newline, CR, FF, VT. -/
def isPySpace (c : Char) : Bool :=
  c = ' ' ∨ c = '\t' ∨ c = '\n' ∨ c = '\r' ∨ c = '\x0c' ∨ c = '\x0b'

/-- Python `str.strip()` on a character list. -/
def pyStripL (l : List Char) : List Char :=
  ((l.dropWhile isPySpace).reverse.dropWhile isPySpace).reverse

/-- Python `str.strip()`. -/
def pyStrip (s : String) : String := ⟨pyStripL s.data⟩

/-- Python `str.upper()` on ASCII input. -/
def pyUpperL (l : List Char) : List Char := l.map Char.toUpper

/-- `pat.isPrefixOf l` on character lists. -/
def isPrefixL : List Char → List Char → Bool
  | [], _ => true
  | _ :: _, [] => false
  | p :: ps, c :: cs => p = c ∧ isPrefixL ps cs

/-- Python `pat in s` (substring containment) on character lists. -/
def containsSubL (l : List Char) (pat : List Char) : Bool :=
  match l with
  | [] => isPrefixL pat []
  | _ :: rest => isPrefixL pat l ∨ containsSubL rest pat

/-- Python `s.replace(pat, repl)` (all occurrences, left to right;
`pat` is nonempty at every call site in the modelled sources).  The
fuel argument only serves structural recursion; `pyReplaceL` supplies
enough of it. -/
def pyReplaceGo (fuel : Nat) (l pat repl : List Char) : List Char :=
  match fuel with
  | 0 => l
  | fuel + 1 =>
    match l, pat with
    | [], _ => []
    | c :: rest, [] => c :: rest
    | c :: rest, p :: ps =>
      if isPrefixL (p :: ps) (c :: rest) then
        repl ++ pyReplaceGo fuel (rest.drop ps.length) (p :: ps) repl
      else
        c :: pyReplaceGo fuel rest (p :: ps) repl

/-- Python `s.replace(pat, repl)`. -/
def pyReplaceL (l pat repl : List Char) : List Char :=
  pyReplaceGo (l.length + 1) l pat repl

/-- Index of the first occurrence of `c` in `l`. -/
def idxOfFirst (l : List Char) (c : Char) : Option Nat :=
  match l with
  | [] => none
  | x :: rest =>
    if x = c then some 0
    else (idxOfFirst rest c).map (· + 1)

/-- Index of the last occurrence of `c` in `l`. -/
def idxOfLast (l : List Char) (c : Char) : Option Nat :=
  (idxOfFirst l.reverse c).map (fun k => l.length - 1 - k)

/-- `re.search(r'\{.*\}', s, re.DOTALL)`: the regex is anchored nowhere,
`.*` is greedy and crosses newlines, so the matched text (if any) runs
from the FIRST `{` to the LAST `}` of the whole string, provided the
last `}` is after the first `{`.  Returns the matched text. -/
def braceSearch (l : List Char) : Option (List Char) :=
  match idxOfFirst l '{', idxOfLast l '}' with
  | some i, some j => if i < j then some ((l.drop i).take (j - i + 1)) else none
  | _, _ => none

/-! ### A model of `json.loads`

Restricted to the JSON fragment the workflow engine's decision objects
use: objects, arrays, double-quoted strings with the single-character
escapes, integer numbers, `true`/`false`/`null`, and ASCII whitespace.
(`\uXXXX` escapes and float literals make the model parser fail where
Python would succeed; no claim exercises them.) -/

/-- JSON insignificant whitespace. -/
def isJsonWs (c : Char) : Bool :=
  c = ' ' ∨ c = '\t' ∨ c = '\n' ∨ c = '\r'

/-- Decode one JSON string escape character. -/
def jsonEscape : Char → Option Char
  | '"' => some '"'
  | '\\' => some '\\'
  | '/' => some '/'
  | 'b' => some '\x08'
  | 'f' => some '\x0c'
  | 'n' => some '\n'
  | 'r' => some '\r'
  | 't' => some '\t'
  | _ => none

/-- Parse the body of a JSON string (after the opening quote). -/
def jsonString : List Char → Option (List Char × List Char)
  | [] => none
  | '"' :: rest => some ([], rest)
  | '\\' :: e :: rest =>
    match jsonEscape e with
    | some c => (jsonString rest).map (fun p => (c :: p.1, p.2))
    | none => none
  | c :: rest =>
    if c.val < 32 then none
    else (jsonString rest).map (fun p => (c :: p.1, p.2))

/-- Parse a JSON integer (sign and digits; a following `.`, `e` or `E`
means a float literal, which the model rejects). -/
def jsonNumber (l : List Char) : Option (PyVal × List Char) :=
  let (sign, l') : Bool × List Char :=
    match l with
    | '-' :: rest => (true, rest)
    | _ => (false, l)
  let ds := l'.takeWhile Char.isDigit
  let rest := l'.dropWhile Char.isDigit
  if ds.isEmpty then none
  else match rest with
    | '.' :: _ => none
    | 'e' :: _ => none
    | 'E' :: _ => none
    | _ =>
      let n : Int := ds.foldl (fun a c => a * 10 + (c.toNat - 48)) 0
      some (.vint (if sign then -n else n), rest)

mutual

/-- Parse one JSON value. -/
def jsonValue (fuel : Nat) (l : List Char) : Option (PyVal × List Char) :=
  match fuel with
  | 0 => none
  | fuel + 1 =>
    match l.dropWhile isJsonWs with
    | [] => none
    | '{' :: rest =>
      match (rest.dropWhile isJsonWs) with
      | '}' :: rest' => some (.vdict [], rest')
      | _ => (jsonMembers fuel rest).map (fun p => (.vdict p.1, p.2))
    | '[' :: rest =>
      match (rest.dropWhile isJsonWs) with
      | ']' :: rest' => some (.vlist [], rest')
      | _ => (jsonElements fuel rest).map (fun p => (.vlist p.1, p.2))
    | '"' :: rest => (jsonString rest).map (fun p => (.vstr ⟨p.1⟩, p.2))
    | 't' :: 'r' :: 'u' :: 'e' :: rest => some (.vbool true, rest)
    | 'f' :: 'a' :: 'l' :: 's' :: 'e' :: rest => some (.vbool false, rest)
    | 'n' :: 'u' :: 'l' :: 'l' :: rest => some (.vnone, rest)
    | c :: rest =>
      if c = '-' ∨ c.isDigit then jsonNumber (c :: rest) else none

/-- Parse `"key": value (, "key": value)* }` object members. -/
def jsonMembers (fuel : Nat) (l : List Char) : Option (List (String × PyVal) × List Char) :=
  match fuel with
  | 0 => none
  | fuel + 1 =>
    match l.dropWhile isJsonWs with
    | '"' :: rest =>
      match jsonString rest with
      | none => none
      | some (key, rest') =>
        match rest'.dropWhile isJsonWs with
        | ':' :: rest'' =>
          match jsonValue fuel rest'' with
          | none => none
          | some (v, rest3) =>
            match rest3.dropWhile isJsonWs with
            | ',' :: rest4 =>
              (jsonMembers fuel rest4).map (fun p => ((⟨key⟩, v) :: p.1, p.2))
            | '}' :: rest4 => some ([(⟨key⟩, v)], rest4)
            | _ => none
        | _ => none
    | _ => none

/-- Parse `value (, value)* ]` array elements. -/
def jsonElements (fuel : Nat) (l : List Char) : Option (List PyVal × List Char) :=
  match fuel with
  | 0 => none
  | fuel + 1 =>
    match jsonValue fuel l with
    | none => none
    | some (v, rest) =>
      match rest.dropWhile isJsonWs with
      | ',' :: rest' => (jsonElements fuel rest').map (fun p => (v :: p.1, p.2))
      | ']' :: rest' => some ([v], rest')
      | _ => none

end

/-- `json.loads` on a character list: parse one value and require only
whitespace after it. -/
def jsonLoads (l : List Char) : Option PyVal :=
  match jsonValue (l.length + 1) l with
  | some (v, rest) => if (rest.dropWhile isJsonWs).isEmpty then some v else none
  | none => none

/-! ### `mas_aider/services/evaluators/condition_evaluator.py`

Shallow embedding of the class `ConditionEvaluator` (the regex-based
evaluator; `self.max_turns` becomes an explicit argument, recursion
depth becomes fuel). -/

namespace ConditionEvaluator

/-- The comparison value produced from the right-hand side of a state
expression: `int(value_str)`, `float(value_str)` (as a rational) or the
quote-stripped string. -/
inductive CompVal where
  | cint : Int → CompVal
  | crat : Rat → CompVal
  | cstr : String → CompVal
deriving Repr

/-- Numeric view of a Python value (`bool` is an `int` in Python). -/
def pyNumQ : PyVal → Option Rat
  | .vbool b => some (if b then 1 else 0)
  | .vint n => some (n : Rat)
  | _ => none

/-- Python `==` between a variable value and a comparison value:
numeric against numeric compares numerically, string against string as
strings, any other mix is `False` (never raises). -/
def compareEq (v : PyVal) (c : CompVal) : Bool :=
  match c with
  | .cstr s => match v with | .vstr t => t = s | _ => false
  | .cint n => match pyNumQ v with | some q => q = (n : Rat) | none => false
  | .crat r => match pyNumQ v with | some q => q = r | none => false

/-- Python `>`: numeric against numeric, string against string;
any other mix raises `TypeError`. -/
def compareGtB (v : PyVal) (c : CompVal) : Except PyErr Bool :=
  match c with
  | .cstr s => match v with | .vstr t => .ok (decide (s < t)) | _ => .error .typeError
  | .cint n => match pyNumQ v with | some q => .ok (decide ((n : Rat) < q)) | none => .error .typeError
  | .crat r => match pyNumQ v with | some q => .ok (decide (r < q)) | none => .error .typeError

/-- Python `>=`. -/
def compareGeB (v : PyVal) (c : CompVal) : Except PyErr Bool :=
  match c with
  | .cstr s => match v with | .vstr t => .ok (decide (s ≤ t)) | _ => .error .typeError
  | .cint n => match pyNumQ v with | some q => .ok (decide ((n : Rat) ≤ q)) | none => .error .typeError
  | .crat r => match pyNumQ v with | some q => .ok (decide (r ≤ q)) | none => .error .typeError

/-- Python `<`. -/
def compareLtB (v : PyVal) (c : CompVal) : Except PyErr Bool :=
  match c with
  | .cstr s => match v with | .vstr t => .ok (decide (t < s)) | _ => .error .typeError
  | .cint n => match pyNumQ v with | some q => .ok (decide (q < (n : Rat))) | none => .error .typeError
  | .crat r => match pyNumQ v with | some q => .ok (decide (q < r)) | none => .error .typeError

/-- Python `<=`. -/
def compareLeB (v : PyVal) (c : CompVal) : Except PyErr Bool :=
  match c with
  | .cstr s => match v with | .vstr t => .ok (decide (t ≤ s)) | _ => .error .typeError
  | .cint n => match pyNumQ v with | some q => .ok (decide (q ≤ (n : Rat))) | none => .error .typeError
  | .crat r => match pyNumQ v with | some q => .ok (decide (q ≤ r)) | none => .error .typeError

/-- Python `int(value_str)`: surrounding whitespace ignored, optional
sign, at least one digit (digit-group underscores not modelled). -/
def pyIntParse (l : List Char) : Option Int :=
  let l := pyStripL l
  let (sign, ds) : Bool × List Char :=
    match l with
    | '-' :: rest => (true, rest)
    | '+' :: rest => (false, rest)
    | _ => (false, l)
  if ds.isEmpty ∨ ¬ ds.all Char.isDigit then none
  else
    let n : Int := ds.foldl (fun a c => a * 10 + (c.toNat - 48)) 0
    some (if sign then -n else n)

/-- Python `float(value_str)` restricted to finite decimal/scientific
numerals, valued as a rational (IEEE rounding is not modelled; no claim
exercises this branch). -/
def pyFloatParse (l : List Char) : Option Rat :=
  let l := pyStripL l
  let (sign, m) : Bool × List Char :=
    match l with
    | '-' :: rest => (true, rest)
    | '+' :: rest => (false, rest)
    | _ => (false, l)
  let ip := m.takeWhile Char.isDigit
  let m1 := m.dropWhile Char.isDigit
  let (fp, m2) : List Char × List Char :=
    match m1 with
    | '.' :: rest => (rest.takeWhile Char.isDigit, rest.dropWhile Char.isDigit)
    | _ => ([], m1)
  if ip.isEmpty ∧ fp.isEmpty then none
  else if (m1.take 1 ≠ ['.']) ∧ m2 = m1 ∧ ip.isEmpty then none
  else
    let mantNum : Int := (ip ++ fp).foldl (fun a c => a * 10 + (c.toNat - 48)) 0
    let mant : Rat := (mantNum : Rat) / ((10 : Rat) ^ fp.length)
    let expPart : Option Rat :=
      match m2 with
      | [] => some 1
      | 'e' :: rest => pyFloatExp rest
      | 'E' :: rest => pyFloatExp rest
      | _ => none
    match expPart with
    | none => none
    | some e => some ((if sign then -mant else mant) * e)
where
  /-- Exponent part `[sign]digits`, as a power of ten. -/
  pyFloatExp (l : List Char) : Option Rat :=
    let (esign, ds) : Bool × List Char :=
      match l with
      | '-' :: rest => (true, rest)
      | '+' :: rest => (false, rest)
      | _ => (false, l)
    if ds.isEmpty ∨ ¬ ds.all Char.isDigit then none
    else
      let k : Nat := ds.foldl (fun a c => a * 10 + (c.toNat - 48)) 0
      some (if esign then ((10 : Rat) ^ k)⁻¹ else (10 : Rat) ^ k)

/-- Python `value_str.strip('"\'')`. -/
def stripQuotesL (l : List Char) : List Char :=
  let isQ : Char → Bool := fun c => c = '"' ∨ c = '\''
  ((l.dropWhile isQ).reverse.dropWhile isQ).reverse

/-- Conversion of the matched right-hand side:
`float(...)` if it contains `.` or `e`/`E`, else `int(...)`, falling
back on `ValueError` to the quote-stripped string. -/
def toCompareValue (valueStr : List Char) : CompVal :=
  if valueStr.contains '.' ∨ (valueStr.map Char.toLower).contains 'e' then
    match pyFloatParse valueStr with
    | some q => .crat q
    | none => .cstr ⟨stripQuotesL valueStr⟩
  else
    match pyIntParse valueStr with
    | some n => .cint n
    | none => .cstr ⟨stripQuotesL valueStr⟩

/-- ASCII model of the regex class `\w`. -/
def isWordChar (c : Char) : Bool := c.isAlphanum ∨ c = '_'

/-- The regex class `[><=!]`. -/
def isOpClassChar (c : Char) : Bool := c = '>' ∨ c = '<' ∨ c = '=' ∨ c = '!'

/-- Backtracking of the second `\s*` of `re.match(r'(\w+)\s*([><=!]+)\s*(.+)', ...)`:
give back trailing whitespace until `(. +)` can match a nonempty,
non-newline-initial remainder (`.` does not match a newline); the value
group is the remainder up to the first newline. -/
def backtrackValue (ws2 r4 : List Char) : Option (List Char) :=
  (List.range (ws2.length + 1)).findSome? (fun t =>
    let rem := ws2.drop (ws2.length - t) ++ r4
    match rem with
    | [] => none
    | c :: _ => if c = '\n' then none else some (rem.takeWhile (· ≠ '\n')))

/-- `re.match(r'(\w+)\s*([><=!]+)\s*(.+)', expr)`: the three groups
(variable, operators, value), if the anchored match succeeds.  When no
whitespace backtracking helps, the operator group gives back its last
character to the value group. -/
def matchStateExpr (l : List Char) : Option (List Char × List Char × List Char) :=
  let w := l.takeWhile isWordChar
  let r1 := l.dropWhile isWordChar
  if w.isEmpty then none
  else
    let r2 := r1.dropWhile isPySpace
    let ops := r2.takeWhile isOpClassChar
    let r3 := r2.dropWhile isOpClassChar
    if ops.isEmpty then none
    else
      let ws2 := r3.takeWhile isPySpace
      let r4 := r3.dropWhile isPySpace
      match backtrackValue ws2 r4 with
      | some v => some (w, ops, v)
      | none =>
        if ops.length ≥ 2 then
          some (w, ops.dropLast, (ops.drop (ops.length - 1) ++ r3).takeWhile (· ≠ '\n'))
        else none

/-- `ConditionEvaluator._is_state_expression`. -/
def isStateExpression (e : String) : Bool :=
  [">=", "<=", "!=", "==", ">", "<", "="].any (fun op => containsSubL e.data op.data)

/-- `ConditionEvaluator._evaluate_state_expression` — its whole body is
inside `try/except Exception: return False`, so it is a total `Bool`.
Note the source's `expr.replace("=", "==")` doubles EVERY `=`, so an
operator group written `==` arrives as `====` and falls off the
operator dispatch chain (returning `False`). -/
def evaluateStateExpression (expr : String) (state : PyDict) : Bool :=
  let l := pyReplaceL expr.data ['='] ['=', '=']
  match matchStateExpr l with
  | none => false
  | some (w, ops, valueStr) =>
    match (dictGet state ⟨w⟩).getD .vnone with
    | .vnone => false
    | v =>
      let cv := toCompareValue valueStr
      let res : Except PyErr Bool :=
        if ops = "==".data then .ok (compareEq v cv)
        else if ops = "!=".data then .ok (¬ compareEq v cv)
        else if ops = ">".data then compareGtB v cv
        else if ops = ">=".data then compareGeB v cv
        else if ops = "<".data then compareLtB v cv
        else if ops = "<=".data then compareLeB v cv
        else .ok false
      match res with
      | .ok b => b
      | .error _ => false

/-- `ConditionEvaluator._split_by_operator` (index loop over the
expression, tracking parenthesis depth). -/
def splitByOperatorGo (fuel : Nat) (op : List Char) (l : List Char) (current : List Char)
    (depth : Int) (parts : List (List Char)) : List (List Char) :=
  match fuel with
  | 0 => parts
  | fuel + 1 =>
    match l with
    | [] => if (pyStripL current).isEmpty then parts else parts ++ [pyStripL current]
    | c :: rest =>
      if c = '(' then splitByOperatorGo fuel op rest (current ++ [c]) (depth + 1) parts
      else if c = ')' then splitByOperatorGo fuel op rest (current ++ [c]) (depth - 1) parts
      else if depth = 0 ∧ pyUpperL ((c :: rest).take (op.length + 2)) = ' ' :: (pyUpperL op ++ [' ']) then
        splitByOperatorGo fuel op ((c :: rest).drop (op.length + 1)) [] depth (parts ++ [pyStripL current])
      else splitByOperatorGo fuel op rest (current ++ [c]) depth parts

/-- `ConditionEvaluator._split_by_operator`. -/
def splitByOperator (expr : String) (op : String) : List (List Char) :=
  splitByOperatorGo (expr.data.length + 1) op.data expr.data [] 0 []

/-- `ConditionEvaluator.check_complex_logic`
(`quality >= 7 and confidence > 0.7`, short-circuit). -/
def checkComplexLogic (agentResponse : PyDict) : Except PyErr Bool :=
  match (dictGet agentResponse "decisions").getD (.vdict []) with
  | .vdict d =>
    let quality := (dictGet d "quality_score").getD (.vint 0)
    let confidence := (dictGet d "confidence").getD (.vint 0)
    match compareGeB quality (.cint 7) with
    | .error e => .error e
    | .ok false => .ok false
    | .ok true => compareGtB confidence (.crat ((7 : Rat) / 10))
  | _ => .error .attributeError

/-- `ConditionEvaluator.check_high_quality`. -/
def checkHighQuality (agentResponse : PyDict) : Except PyErr Bool :=
  match (dictGet agentResponse "decisions").getD (.vdict []) with
  | .vdict d => compareGeB ((dictGet d "quality_score").getD (.vint 0)) (.cint 9)
  | _ => .error .attributeError

/-- `state.get("turn_count", 0) >= self.max_turns`, the
`max_turns_exceeded` system condition (raises `TypeError` on a
non-numeric stored value). -/
def sysMaxTurnsExceeded (state : PyDict) (maxTurns : Int) : Except PyErr Bool :=
  match pyNumQ ((dictGet state "turn_count").getD (.vint 0)) with
  | some q => .ok (decide ((maxTurns : Rat) ≤ q))
  | none => .error .typeError

/-- `state.get("error") is not None`, the `error_occurred` system
condition. -/
def sysErrorOccurred (state : PyDict) : Bool :=
  match dictGet state "error" with
  | none => false
  | some .vnone => false
  | some _ => true

/-- `condition_expr in decisions` followed (on success) by
`bool(decisions[condition_expr])`, for an arbitrary value of
`agent_response["decisions"]`: a dict looks the key up, a string tests
substring containment and then raises on indexing, a list tests
membership and then raises on indexing, and scalars are not iterable. -/
def decisionsLookup (decisions : PyVal) (expr : String) : Except PyErr (Option PyVal) :=
  match decisions with
  | .vdict d => .ok (dictGet d expr)
  | .vstr s => if containsSubL s.data expr.data then .error .typeError else .ok none
  | .vlist l =>
    if l.any (fun v => match v with | .vstr t => t = expr | _ => false) then
      .error .typeError
    else .ok none
  | _ => .error .typeError

mutual

/-- `ConditionEvaluator.evaluate`. -/
def evaluate (fuel : Nat) (maxTurns : Int) (conditionExpr : String)
    (agentResponse : PyDict) (globalState : PyDict) : Except PyErr Bool :=
  match fuel with
  | 0 => .error .recursionError
  | f + 1 =>
    if conditionExpr = "" ∨ pyStrip conditionExpr = "" then .ok true
    else
      let e := pyStrip conditionExpr
      if e = "always" then .ok true
      else if e = "never" then .ok false
      else if e = "max_turns_exceeded" then sysMaxTurnsExceeded globalState maxTurns
      else if e = "error_occurred" then .ok (sysErrorOccurred globalState)
      else
        match decisionsLookup ((dictGet agentResponse "decisions").getD (.vdict [])) e with
        | .error err => .error err
        | .ok (some v) => .ok (pyTruthy v)
        | .ok none =>
          if isStateExpression e then .ok (evaluateStateExpression e globalState)
          else if [" AND ", " OR ", " NOT "].any (fun op => containsSubL (pyUpperL e.data) op.data) then
            evaluateCompoundCondition f maxTurns e agentResponse globalState
          else if e = "complex_logic" then checkComplexLogic agentResponse
          else if e = "high_quality" then checkHighQuality agentResponse
          else .ok (pyTruthy ((dictGet globalState e).getD (.vbool false)))

/-- `ConditionEvaluator._evaluate_compound_condition` — the body is
inside `try/except Exception: return False`, so any error from a
sub-evaluation (including running out of fuel) becomes `False`. -/
def evaluateCompoundCondition (fuel : Nat) (maxTurns : Int) (expr : String)
    (agentResponse : PyDict) (globalState : PyDict) : Except PyErr Bool :=
  match fuel with
  | 0 => .error .recursionError
  | f + 1 =>
    let res : Except PyErr Bool :=
      if isPrefixL "NOT ".data (pyUpperL expr.data) then
        match evaluate f maxTurns (pyStrip ⟨expr.data.drop 4⟩) agentResponse globalState with
        | .ok b => .ok (¬ b)
        | .error err => .error err
      else if containsSubL (pyUpperL expr.data) " AND ".data then
        evalAllParts f maxTurns (splitByOperator expr "AND") agentResponse globalState
      else if containsSubL (pyUpperL expr.data) " OR ".data then
        evalAnyParts f maxTurns (splitByOperator expr "OR") agentResponse globalState
      else .ok false
    match res with
    | .ok b => .ok b
    | .error _ => .ok false

/-- `all(self.evaluate(part.strip(), ...) for part in parts)` with
Python's short-circuiting (an exception aborts the iteration). -/
def evalAllParts (fuel : Nat) (maxTurns : Int) (parts : List (List Char))
    (agentResponse : PyDict) (globalState : PyDict) : Except PyErr Bool :=
  match fuel with
  | 0 => .error .recursionError
  | f + 1 =>
    match parts with
    | [] => .ok true
    | p :: ps =>
      match evaluate f maxTurns (pyStrip ⟨p⟩) agentResponse globalState with
      | .ok true => evalAllParts f maxTurns ps agentResponse globalState
      | .ok false => .ok false
      | .error err => .error err

/-- `any(self.evaluate(part.strip(), ...) for part in parts)` with
Python's short-circuiting. -/
def evalAnyParts (fuel : Nat) (maxTurns : Int) (parts : List (List Char))
    (agentResponse : PyDict) (globalState : PyDict) : Except PyErr Bool :=
  match fuel with
  | 0 => .error .recursionError
  | f + 1 =>
    match parts with
    | [] => .ok false
    | p :: ps =>
      match evaluate f maxTurns (pyStrip ⟨p⟩) agentResponse globalState with
      | .ok true => .ok true
      | .ok false => evalAnyParts f maxTurns ps agentResponse globalState
      | .error err => .error err

end

end ConditionEvaluator

/-! ### Workflow configuration (parsed YAML)

Shared by both engines (`self.states`, `self.exit_conditions`,
`self.max_turns` read from the config dict). -/

/-- One entry of a state's `transitions` list (`condition` defaults to
`"true"`, `to` defaults to `"END"` where read). -/
structure TransitionCfg where
  condition : Option String
  toState : Option String

/-- One entry of the config's `states` list. -/
structure StateCfg where
  name : String
  agent : String
  prompt : String
  start : Bool
  transitions : List TransitionCfg

/-- The workflow configuration: `states`, the `condition` keys of
`exit_conditions` (`exit_condition.get("condition", ...)`), and
`max_turns` (`config.get("max_turns", 10)`). -/
structure WorkflowConfig where
  states : List StateCfg
  exitConditions : List (Option String)
  maxTurns : Int

/-- `{state["name"]: state for state in self.states}` followed by
`self.state_map.get(name)`: a dict comprehension keeps the LAST state
of a duplicated name. -/
def stateMapGet (states : List StateCfg) (name : String) : Option StateCfg :=
  states.reverse.find? (fun s => s.name = name)

/-- `_get_start_state` (identical in both engines): the first state
flagged `start`, else the first declared state. -/
def getStartState (states : List StateCfg) : Option String :=
  match states.find? (fun s => s.start) with
  | some s => some s.name
  | none => states.head?.map (fun s => s.name)

/-- Python `str(v)` / nested `repr(v)`, fuel-structural (quote escaping
inside nested strings is not modelled; the result only flows into
rendered prompts). -/
def pyReprGo (fuel : Nat) (v : PyVal) : String :=
  match fuel with
  | 0 => ""
  | fuel + 1 =>
    match v with
    | .vnone => "None"
    | .vbool true => "True"
    | .vbool false => "False"
    | .vint n => toString n
    | .vstr s => "'" ++ s ++ "'"
    | .vlist l => "[" ++ String.intercalate ", " (l.map (pyReprGo fuel)) ++ "]"
    | .vdict d =>
      "\x7b" ++ String.intercalate ", " (d.map (fun kv => "'" ++ kv.1 ++ "': " ++ pyReprGo fuel kv.2)) ++ "\x7d"

/-- Python `str(v)` (`str` of a string is the string itself). -/
def pyStr (v : PyVal) : String :=
  match v with
  | .vstr s => s
  | v => pyReprGo 100 v

/-! ### `mas_aider/services/engines/state_machine_engine.py` -/

namespace StateMachineEngine

open ConditionEvaluator

/-- `StateMachineEngine._evaluate_transitions`: first transition whose
condition evaluates true wins; an evaluator exception propagates (it is
only caught by the `while` loop's `except`, as an `ExecutionError`). -/
def evaluateTransitions (fuel : Nat) (maxTurns : Int) (transitions : List TransitionCfg)
    (agentResponse : PyDict) (globalState : PyDict) : Except PyErr String :=
  match transitions with
  | [] => .ok "END"
  | t :: ts =>
    let condition := t.condition.getD "true"
    let target := t.toState.getD "END"
    match evaluate fuel maxTurns condition agentResponse globalState with
    | .ok true => .ok target
    | .ok false => evaluateTransitions fuel maxTurns ts agentResponse globalState
    | .error e => .error e

/-- `StateMachineEngine._check_global_exit_conditions`: the declared
exit conditions, evaluated with an empty agent response (`{}`); note
the engine does NOT skip empty conditions here, and an empty condition
evaluates true. -/
def checkGlobalExitConditions (fuel : Nat) (maxTurns : Int) (exitConditions : List (Option String))
    (globalState : PyDict) : Except PyErr Bool :=
  match exitConditions with
  | [] => .ok false
  | c :: cs =>
    match evaluate fuel maxTurns (c.getD "") [] globalState with
    | .ok true => .ok true
    | .ok false => checkGlobalExitConditions fuel maxTurns cs globalState
    | .error e => .error e

/-- `StateMachineEngine._parse_agent_response` (permissive mode): grab
the greedy first-`{`-to-last-`}` regex match, decode it, and fall back
to `{"content": response, "decisions": {}}` on any failure. -/
def parseAgentResponse (response : String) : PyVal :=
  match braceSearch response.data with
  | some matched =>
    match jsonLoads matched with
    | some v => v
    | none => .vdict [("content", .vstr response), ("decisions", .vdict [])]
  | none => .vdict [("content", .vstr response), ("decisions", .vdict [])]

/-- `StateMachineEngine._render_prompt`.  `COLLABORATION_GUIDE` is
imported from `mas_aider/workflows/workspace_interaction_guide.py`,
which is absent from the sources, so the constant is a parameter.
Errors (`TypeError`/`AttributeError` style) arise exactly where Python
would raise on values of unexpected shape reached through
`global_state`. -/
def renderPrompt (template initialMessage guide : String) (globalState : PyDict) :
    Except PyErr String :=
  let p1 := pyReplaceL template.data "\x7b\x7binitial_message\x7d\x7d".data initialMessage.data
  let p2 := pyReplaceL p1 "\x7b\x7bturn_count\x7d\x7d".data
    (pyStr ((dictGet globalState "turn_count").getD (.vint 0))).data
  let p3 := pyReplaceL p2 "\x7b\x7bCOLLABORATION_GUIDE\x7d\x7d".data (pyStrip guide).data
  let agentResponses := (dictGet globalState "agent_responses").getD (.vlist [])
  if pyTruthy agentResponses then
    match agentResponses with
    | .vlist l =>
      match l.getLast? with
      | none => .error .typeError
      | some lastResponse =>
        match lastResponse with
        | .vdict lr =>
          let lastAgentName := (dictGet lr "agent").getD (.vstr "")
          let resp := (dictGet lr "response").getD (.vdict [])
          match resp with
          | .vdict rd =>
            let lastContent := (dictGet rd "content").getD (.vstr "")
            let lastDecisions := (dictGet rd "decisions").getD (.vdict [])
            match lastAgentName, lastContent with
            | .vstr an, .vstr lc =>
              let p4 := pyReplaceL p3 "\x7b\x7blast_agent_name\x7d\x7d".data an.data
              let p5 := pyReplaceL p4 "\x7b\x7blast_agent_content\x7d\x7d".data lc.data
              let p6 := pyReplaceL p5 "\x7b\x7blast_agent_decisions\x7d\x7d".data (pyStr lastDecisions).data
              .ok ⟨p6⟩
            | _, _ => .error .typeError
          | _ => .error .attributeError
        | _ => .error .attributeError
    | _ => .error .typeError
  else
    let p4 := pyReplaceL p3 "\x7b\x7blast_agent_name\x7d\x7d".data []
    let p5 := pyReplaceL p4 "\x7b\x7blast_agent_content\x7d\x7d".data []
    let p6 := pyReplaceL p5 "\x7b\x7blast_agent_decisions\x7d\x7d".data "\x7b\x7d".data
    .ok ⟨p6⟩

/-- Append an element to a dict entry that must hold a Python list
(`global_state[key].append(entry)`); anything else raises. -/
def listAppendAt (g : PyDict) (key : String) (entry : PyVal) : Except PyErr PyDict :=
  match dictGet g key with
  | some (.vlist l) => .ok (dictSet g key (.vlist (l ++ [entry])))
  | some _ => .error .attributeError
  | none => .error .typeError

/-- `global_state["turn_count"] += 1` (a Python `bool` is an `int`;
anything else raises `TypeError`). -/
def incTurnCount (g : PyDict) : Except PyErr PyDict :=
  match dictGet g "turn_count" with
  | some (.vint n) => .ok (dictSet g "turn_count" (.vint (n + 1)))
  | some (.vbool b) => .ok (dictSet g "turn_count" (.vint (if b then 2 else 1)))
  | _ => .error .typeError

/-- `global_state.update(decisions)`: the parsed `decisions` value is
merged into the run-scoped global state.  A non-dict raises (a list of
pairs would be accepted by Python's `dict.update`; the engine never
produces one, and the coarse model raises). -/
def updateDecisions (g : PyDict) (decisions : PyVal) : Except PyErr PyDict :=
  match decisions with
  | .vdict ds => .ok (dictUpdate g ds)
  | _ => .error .typeError

/-- One iteration of the `while` loop of `StateMachineEngine.execute`
(lines 105–163).  Result: `ok (g', some next)` continues the loop with
`next`, `ok (g', none)` is a `break`, and `error` is the
`except Exception` branch re-raising as `ExecutionError` (the state's
agent is invoked through `oracle : agent name → prompt → reply`). -/
def step (fuel : Nat) (cfg : WorkflowConfig) (oracle : String → String → Except PyErr String)
    (guide initialMessage : String) (currentName : String) (g : PyDict) :
    Except PyErr (PyDict × Option String) :=
  match checkGlobalExitConditions fuel cfg.maxTurns cfg.exitConditions g with
  | .error e => .error e
  | .ok true => .ok (g, none)
  | .ok false =>
    match stateMapGet cfg.states currentName with
    | none => .ok (g, none)
    | some currentState =>
      match renderPrompt currentState.prompt initialMessage guide g with
      | .error e => .error e
      | .ok prompt =>
        match oracle currentState.agent prompt with
        | .error e => .error e
        | .ok response =>
          let agentResponse := parseAgentResponse response
          match listAppendAt g "agent_responses"
              (.vdict [("state", .vstr currentName), ("agent", .vstr currentState.agent),
                       ("response", agentResponse)]) with
          | .error e => .error e
          | .ok g1 =>
            let decisions :=
              match agentResponse with
              | .vdict d => (dictGet d "decisions").getD (.vdict [])
              | _ => .vdict []
            match updateDecisions g1 decisions with
            | .error e => .error e
            | .ok g2 =>
              match dictGet g2 "turn_count" with
              | none => .error .typeError
              | some tc =>
                match listAppendAt g2 "execution_history"
                    (.vdict [("state", .vstr currentName), ("agent", .vstr currentState.agent),
                             ("decisions", decisions), ("turn_count", tc)]) with
                | .error e => .error e
                | .ok g3 =>
                  let responseDict : PyDict :=
                    match agentResponse with
                    | .vdict d => d
                    | _ => []
                  match evaluateTransitions fuel cfg.maxTurns currentState.transitions responseDict g3 with
                  | .error e => .error e
                  | .ok nextState =>
                    let g4 := dictSet g3 "current_state" (.vstr nextState)
                    match incTurnCount g4 with
                    | .error e => .error e
                    | .ok g5 => .ok (g5, some nextState)

/-- The initialisation of `global_state` at the top of
`StateMachineEngine.execute` (`start_time` is wall-clock time, out of
the model). -/
def initGlobalState (initialState : PyDict) : PyDict :=
  dictUpdate initialState
    [("turn_count", .vint 0), ("current_state", .vstr "start"),
     ("execution_history", .vlist []), ("agent_responses", .vlist [])]

end StateMachineEngine

/-! ### `mas_aider/engines/langgraph_engine.py`

The engine's `WorkflowState` dict, `create_initial_state` and
`extract_agent_context` come from `mas_aider/core/workflow_state.py`,
which is absent from the sources; those three are modelled from the
spec (§3 RunState and §4.3 step 6).  The injected
`UnifiedConditionEvaluator` (also absent) is an abstract function
parameter, exactly as it is an injected constructor dependency in the
source.  LangGraph's `graph.invoke` is modelled as the sequential
node-then-route loop of the spec's §4.3, raising `GraphRecursionError`
when `recursion_limit` supersteps are exhausted. -/

namespace LangGraphEngine

/-- Modelled from the spec: the run state `WorkflowState` of the
missing `mas_aider/core/workflow_state.py`.  The dynamic
`turn_count_<agent>_<state>` dict keys live in `edgeTurns`; the only
writer is the router, which always stores ints.  The langchain
`messages` channel feeds only the external agent and is omitted. -/
structure WState where
  workflowName : String
  initialMessage : String
  lastAgent : String
  lastContent : PyVal
  decisions : PyVal
  totalTurns : Int
  executionHistory : List (String × String × PyVal × Int)
  agentResponses : List (String × String × PyVal)
  error : Option String
  errorState : Option String
  edgeTurns : List (String × Int)

/-- `get`/`set` on the dynamic per-edge counter keys. -/
def edgeGet (d : List (String × Int)) (k : String) : Option Int :=
  match d with
  | [] => none
  | (k', v) :: rest =>
    match edgeGet rest k with
    | some w => some w
    | none => if k' = k then some v else none

/-- Bind a per-edge counter key. -/
def edgeSet (d : List (String × Int)) (k : String) (v : Int) : List (String × Int) :=
  d ++ [(k, v)]

/-- Modelled from the spec: `create_initial_state` (zero counters,
empty collections, no error). -/
def createInitialState (workflowName initialMessage : String) : WState :=
  ⟨workflowName, initialMessage, "", .vstr "", .vdict [], 0, [], [], none, none, []⟩

/-- Modelled from the spec: `extract_agent_context` hands the evaluator
the response-scoped decision map, a run-scoped condition state (the
fine-grained per-edge counters), and the system state
(`total_turns`, `error`).  Every theorem below quantifies over the
injected evaluator, so only the `total_turns` entry is ever
consulted directly (by `_check_global_exit_conditions`). -/
def extractAgentContext (st : WState) : PyDict × PyDict × PyDict :=
  ([("decisions", st.decisions), ("content", st.lastContent)],
   st.edgeTurns.map (fun p => (p.1, PyVal.vint p.2)),
   [("total_turns", .vint st.totalTurns),
    ("error", match st.error with | some e => .vstr e | none => .vnone)])

/-- The injected `UnifiedConditionEvaluator.evaluate(condition,
agent_response, condition_state, system_state)` (its implementation is
absent from the sources; it is a constructor dependency of the
engine). -/
abbrev CondEval := String → PyDict → PyDict → PyDict → Except String Bool

/-- `LangGraphEngine._parse_agent_response` (strict mode): the greedy
first-`{`-to-last-`}` regex match must decode to an object with a
`decisions` key, else `AgentError`; a missing `content` key is filled
with the response minus the matched text, stripped, and a falsy
`content` with the whole raw response. -/
def parseAgentResponse (response : String) : Except String PyDict :=
  match braceSearch response.data with
  | none => .error "AgentError: response contains no JSON"
  | some matched =>
    match jsonLoads matched with
    | none => .error "AgentError: invalid JSON in response"
    | some (.vdict parsed) =>
      if (dictGet parsed "decisions").isNone then
        .error "AgentError: response missing decisions field"
      else
        let parsed :=
          if (dictGet parsed "content").isSome then parsed
          else dictSet parsed "content" (.vstr (pyStrip ⟨pyReplaceL response.data matched []⟩))
        let parsed :=
          if pyTruthy ((dictGet parsed "content").getD .vnone) then parsed
          else dictSet parsed "content" (.vstr response)
        .ok parsed
    | some _ =>
      -- unreachable: the matched text starts with `{`, so a successful
      -- decode is an object
      .error "AgentError: response missing decisions field"

/-- Split `l` at the first occurrence of `delim`, returning the parts
before and after it. -/
def splitAtDelim (delim : List Char) (l : List Char) : Option (List Char × List Char) :=
  match l with
  | [] => if delim.isEmpty then some ([], []) else none
  | c :: rest =>
    if isPrefixL delim (c :: rest) then some ([], (c :: rest).drop delim.length)
    else (splitAtDelim delim rest).map (fun p => (c :: p.1, p.2))

/-- The `{% if last_agent_name == "<name>" %}…{% else %}…{% endif %}`
substitution of `_render_prompt` (`re.sub` with non-greedy bodies,
scanning left to right; only the canonical single-space spelling of the
delimiters is modelled — the source regex also tolerates whitespace
variations no shipped template uses). -/
def renderConditionalsGo (fuel : Nat) (l : List Char) (lastAgentName : String) : List Char :=
  match fuel with
  | 0 => l
  | fuel + 1 =>
    match l with
    | [] => []
    | c :: rest =>
      let tryOpen : Option (List Char) :=
        match splitAtDelim "\x7b% if last_agent_name == ".data (c :: rest) with
        | some ([], afterOpen) =>
          match afterOpen with
          | q :: afterQ =>
            if q = '"' ∨ q = '\'' then
              let name := afterQ.takeWhile ConditionEvaluator.isWordChar
              let afterName := afterQ.dropWhile ConditionEvaluator.isWordChar
              if name.isEmpty then none
              else
                match afterName with
                | q2 :: afterQ2 =>
                  if q2 = q then
                    match splitAtDelim " %\x7d".data afterQ2 with
                    | some ([], afterHead) =>
                      match splitAtDelim "\x7b% else %\x7d".data afterHead with
                      | some (ifBlock, afterElse) =>
                        match splitAtDelim "\x7b% endif %\x7d".data afterElse with
                        | some (elseBlock, afterEnd) =>
                          let chosen := if lastAgentName = ⟨name⟩ then ifBlock else elseBlock
                          some (chosen ++ renderConditionalsGo fuel afterEnd lastAgentName)
                        | none => none
                      | none => none
                    | _ => none
                  else none
                | [] => none
            else none
          | [] => none
        | _ => none
      match tryOpen with
      | some replaced => replaced
      | none => c :: renderConditionalsGo fuel rest lastAgentName

/-- `LangGraphEngine._render_prompt`.  As in the other engine the
`COLLABORATION_GUIDE` constant (whose module is absent from the
sources) is a parameter.  Raises where Python would on values of
unexpected shape reached through `agent_responses`. -/
def renderPrompt (template guide : String) (st : WState) : Except String String :=
  let p1 := pyReplaceL template.data "\x7b\x7binitial_message\x7d\x7d".data st.initialMessage.data
  let p2 := pyReplaceL p1 "\x7b\x7bturn_count\x7d\x7d".data (pyStr (.vint st.totalTurns)).data
  let p3 := pyReplaceL p2 "\x7b\x7bCOLLABORATION_GUIDE\x7d\x7d".data (pyStrip guide).data
  match st.agentResponses.getLast? with
  | some (_, lastAgentName, resp) =>
    match resp with
    | .vdict rd =>
      let lastContent := (dictGet rd "content").getD (.vstr "")
      let lastDecisions := (dictGet rd "decisions").getD (.vdict [])
      match lastContent with
      | .vstr lc =>
        let p4 := pyReplaceL p3 "\x7b\x7blast_agent_name\x7d\x7d".data lastAgentName.data
        let p5 := pyReplaceL p4 "\x7b\x7blast_agent_content\x7d\x7d".data lc.data
        let p6 := pyReplaceL p5 "\x7b\x7blast_agent_decisions\x7d\x7d".data (pyStr lastDecisions).data
        .ok ⟨renderConditionalsGo (p6.length + 1) p6 lastAgentName⟩
      | _ => .error "TypeError"
    | _ => .error "AttributeError"
  | none =>
    let p4 := pyReplaceL p3 "\x7b\x7blast_agent_name\x7d\x7d".data []
    let p5 := pyReplaceL p4 "\x7b\x7blast_agent_content\x7d\x7d".data []
    let p6 := pyReplaceL p5 "\x7b\x7blast_agent_decisions\x7d\x7d".data "\x7b\x7d".data
    .ok ⟨renderConditionalsGo (p6.length + 1) p6 ""⟩

/-- The node function built by `LangGraphEngine._create_agent_node`:
render the prompt, call the agent (`oracle : agent name → prompt →
reply`), strict-parse the reply, then apply the state updates; any
exception is caught and recorded in `error`/`error_state`. -/
def agentNode (agentName stateName promptTemplate guide : String)
    (oracle : String → String → Except String String) (st : WState) : WState :=
  let body : Except String WState :=
    match renderPrompt promptTemplate guide st with
    | .error e => .error e
    | .ok prompt =>
      match oracle agentName prompt with
      | .error e => .error e
      | .ok response =>
        match parseAgentResponse response with
        | .error e => .error e
        | .ok parsed =>
          let decisions := (dictGet parsed "decisions").getD (.vdict [])
          let newTotal := st.totalTurns + 1
          .ok { st with
            lastAgent := agentName
            lastContent := (dictGet parsed "content").getD (.vstr response)
            decisions := decisions
            totalTurns := newTotal
            executionHistory := st.executionHistory ++ [(stateName, agentName, decisions, newTotal)]
            agentResponses := st.agentResponses ++ [(stateName, agentName, .vdict parsed)] }
  match body with
  | .ok s => s
  | .error e => { st with error := some e, errorState := some stateName }

/-- `LangGraphEngine._check_global_exit_conditions`: the hard
`total_turns >= max_turns` stop, then the declared exit conditions
(empty ones skipped; evaluator exceptions caught and ignored). -/
def checkGlobalExitConditions (maxTurns : Int) (exitConditions : List (Option String))
    (evalFn : CondEval) (st : WState) : Bool :=
  let ctx := extractAgentContext st
  if st.totalTurns ≥ maxTurns then true
  else go exitConditions ctx.2.1 ctx.2.2
where
  /-- The `for exit_condition in self.exit_conditions` loop. -/
  go : List (Option String) → PyDict → PyDict → Bool
  | [], _, _ => false
  | c :: cs, conditionState, systemState =>
    let condition := c.getD ""
    if condition = "" then go cs conditionState systemState
    else
      match evalFn condition [] conditionState systemState with
      | .ok true => true
      | _ => go cs conditionState systemState

/-- The transition loop of the router built by
`LangGraphEngine._create_router_function`: first condition that
evaluates true wins (evaluator exceptions are caught and the loop
continues); on a match with a non-`END` target and a nonempty
`last_agent`, the per-edge counter `turn_count_<agent>_<target>` is
incremented — the only write to those keys. -/
def routerLoop (evalFn : CondEval) (transitions : List TransitionCfg)
    (ar conditionState systemState : PyDict) (st : WState) : WState × String :=
  match transitions with
  | [] => (st, "END")
  | t :: ts =>
    let condition := t.condition.getD "true"
    let target := t.toState.getD "END"
    match evalFn condition ar conditionState systemState with
    | .ok true =>
      if st.lastAgent ≠ "" ∧ target ≠ "END" then
        let key := "turn_count_" ++ st.lastAgent ++ "_" ++ target
        ({ st with edgeTurns := edgeSet st.edgeTurns key (((edgeGet st.edgeTurns key).getD 0) + 1) },
         target)
      else (st, target)
    | _ => routerLoop evalFn ts ar conditionState systemState st

/-- The router function built by `_create_router_function`: global exit
check first, then the transition loop. -/
def router (maxTurns : Int) (exitConditions : List (Option String)) (evalFn : CondEval)
    (transitions : List TransitionCfg) (st : WState) : WState × String :=
  if checkGlobalExitConditions maxTurns exitConditions evalFn st then (st, "END")
  else
    let ctx := extractAgentContext st
    routerLoop evalFn transitions ctx.1 ctx.2.1 ctx.2.2 st

/-- The state with the per-edge counter `turn_count_<last_agent>_<target>`
incremented by one (the router's line
`state[turn_count_key] = state.get(turn_count_key, 0) + 1`). -/
def bumpEdge (st : WState) (target : String) : WState :=
  let key := "turn_count_" ++ st.lastAgent ++ "_" ++ target
  let v := ((edgeGet st.edgeTurns key).getD 0) + 1
  { st with edgeTurns := edgeSet st.edgeTurns key v }

/-- Modelled from the spec: LangGraph's `graph.invoke` as the spec's
§4.3 step loop over the compiled graph — run the current node, then
either the direct edge to `END` (a state with no transitions) or the
conditional router; `GraphRecursionError` when the configured
`recursion_limit` supersteps are used up before reaching `END`. -/
def invoke (cfg : WorkflowConfig) (oracle : String → String → Except String String)
    (evalFn : CondEval) (guide : String) : Nat → String → WState → Except String WState
  | 0, _, _ => .error "GraphRecursionError"
  | fuel + 1, currentName, st =>
    match stateMapGet cfg.states currentName with
    | none => .error "InvalidNodeError"
    | some sc =>
      let st' := agentNode sc.agent sc.name sc.prompt guide oracle st
      if sc.transitions.isEmpty then .ok st'
      else
        let r := router cfg.maxTurns cfg.exitConditions evalFn sc.transitions st'
        if r.2 = "END" then .ok r.1
        else invoke cfg oracle evalFn guide fuel r.2 r.1

/-- Number of node executions `invoke` performs (same recursion
structure as `invoke`). -/
def invokeSteps (cfg : WorkflowConfig) (oracle : String → String → Except String String)
    (evalFn : CondEval) (guide : String) : Nat → String → WState → Nat
  | 0, _, _ => 0
  | fuel + 1, currentName, st =>
    match stateMapGet cfg.states currentName with
    | none => 0
    | some sc =>
      let st' := agentNode sc.agent sc.name sc.prompt guide oracle st
      if sc.transitions.isEmpty then 1
      else
        let r := router cfg.maxTurns cfg.exitConditions evalFn sc.transitions st'
        if r.2 = "END" then 1
        else 1 + invokeSteps cfg oracle evalFn guide fuel r.2 r.1

/-- The dict returned by `LangGraphEngine.execute` /
`_build_result`, as a structure (the `final_content` filesystem
snapshot of `_get_final_content` is I/O and rendered as `""`;
`total_time` is wall-clock and omitted). -/
structure EngineResult where
  success : Bool
  finalContent : String
  totalTurns : Int
  agentsUsed : List String
  metaError : Option String
  metaErrorState : Option String
  metaHistory : List (String × String × PyVal × Int)

/-- `LangGraphEngine._build_result` (`success = error is None`;
`agents_used = list(set(...))`, modelled as order-preserving
deduplication). -/
def buildResult (fs : WState) : EngineResult :=
  ⟨fs.error.isNone, "", fs.totalTurns,
   ((fs.executionHistory.map (fun h => h.2.1)).dedup), fs.error, fs.errorState,
   fs.executionHistory⟩

/-- `LangGraphEngine.execute`: build the initial state, invoke the
graph with `recursion_limit = self.max_turns * 3`, build the result;
any exception becomes the failure dict of the `except` branch (which
reports the untouched initial state's counters and history). -/
def execute (cfg : WorkflowConfig) (oracle : String → String → Except String String)
    (evalFn : CondEval) (guide : String) (start workflowName initialMessage : String) :
    EngineResult :=
  let initState := createInitialState workflowName initialMessage
  match invoke cfg oracle evalFn guide (3 * cfg.maxTurns).toNat start initState with
  | .ok finalState => buildResult finalState
  | .error e =>
    ⟨false, "", initState.totalTurns, [], some e, none, initState.executionHistory⟩

end LangGraphEngine

/-! ### `src/core/config_workflow.py` (`ConfigWorkflow.execute`) -/

namespace ConfigWorkflow

/-- The `WorkflowResult` dataclass of `mas_aider/core/workflow_base.py`
(metadata flattened; `error_message` defaults to `None`). -/
structure WorkflowResult where
  success : Bool
  finalContent : String
  totalTurns : Int
  agentsUsed : List String
  metaError : Option String
  metaErrorState : Option String
  metaHistory : List (String × String × PyVal × Int)
  errorMessage : Option String

/-- `ConfigWorkflow.execute`: construct the engine and run it, then
wrap the result dict into a `WorkflowResult` — note the success path
(source lines 95–101) passes NO `error_message`, so it stays `None`
even for a failed run; only the `except` branch sets it.  The one
modelled construction failure is `_build_graph`'s
`ValueError("No start state ...")` (no states declared); workspace and
agent-service setup are external collaborators. -/
def execute (cfg : WorkflowConfig) (oracle : String → String → Except String String)
    (evalFn : LangGraphEngine.CondEval) (guide workflowName initialMessage : String) :
    WorkflowResult :=
  match getStartState cfg.states with
  | none =>
    ⟨false, "", 0, [], none, none, [], some "No start state found in workflow configuration"⟩
  | some start =>
    let r := LangGraphEngine.execute cfg oracle evalFn guide start workflowName initialMessage
    ⟨r.success, r.finalContent, r.totalTurns, r.agentsUsed, r.metaError, r.metaErrorState,
     r.metaHistory, none⟩

end ConfigWorkflow

/-! ### Concrete run configurations used by witnesses and counterexamples -/

/-- A one-state workflow that loops on itself on condition `"true"`,
with `max_turns = 1` and an unreachable business exit. -/
def loopConfig : WorkflowConfig :=
  ⟨[⟨"A", "coder", "", false, [⟨some "true", some "A"⟩]⟩], [], 1⟩

/-- A one-state workflow with no transitions (direct edge to `END`). -/
def singleStateConfig : WorkflowConfig :=
  ⟨[⟨"A", "coder", "", false, []⟩], [], 10⟩

/-- An agent collaborator whose call always fails. -/
def failingOracle : String → String → Except String String := fun _ _ => .error "boom"

/-- An injected evaluator that deems every condition satisfied. -/
def alwaysTrueEval : LangGraphEngine.CondEval := fun _ _ _ _ => .ok true

/-- An injected evaluator that deems no condition satisfied. -/
def alwaysFalseEval : LangGraphEngine.CondEval := fun _ _ _ _ => .ok false

/-- A state-machine agent whose reply's decisions clobber the engine's
own `turn_count` key. -/
def clobberingOracle : String → String → Except PyErr String :=
  fun _ _ => .ok "\x7b\"decisions\": \x7b\"turn_count\": 99\x7d\x7d"

/-- A state-machine agent with a well-behaved decision object. -/
def confirmingOracle : String → String → Except PyErr String :=
  fun _ _ => .ok "done \x7b\"decisions\": \x7b\"confirmed\": true\x7d\x7d"

/-- Length of the `execution_history` list held in the run-scoped
state dict. -/
def histLength (g : PyDict) : Nat :=
  match dictGet g "execution_history" with
  | some (.vlist l) => l.length
  | _ => 0

/-- Transitions of the per-edge counter scenario: edge to `B` guarded
by `go`, else explicit `END`. -/
def edgeTransitions : List TransitionCfg :=
  [⟨some "go", some "B"⟩, ⟨some "true", some "END"⟩]

/-- Injected evaluator for the per-edge counter scenario: `go` is
satisfied iff `b`. -/
def edgeEval (b : Bool) : LangGraphEngine.CondEval :=
  fun c _ _ _ => .ok (if c = "go" then b else true)

/-- Router input whose `last_agent` is `A`. -/
def edgeStart : LangGraphEngine.WState :=
  { LangGraphEngine.createInitialState "w" "m" with lastAgent := "A" }

/-- Route three times with the `A→B` edge firing, then once more with
it failing (explicit transition to the terminal marker). -/
def edgeScenario : LangGraphEngine.WState × String :=
  let r1 := LangGraphEngine.router 10 [] (edgeEval true) edgeTransitions edgeStart
  let r2 := LangGraphEngine.router 10 [] (edgeEval true) edgeTransitions r1.1
  let r3 := LangGraphEngine.router 10 [] (edgeEval true) edgeTransitions r2.1
  LangGraphEngine.router 10 [] (edgeEval false) edgeTransitions r3.1

/-! ### Claim theorems -/

/-- C1 (counterexample): with the transition list
`[{condition:"false", to:"B"}, {condition:"true", to:"C"}]` and empty
decision/state maps, the routing step selects the terminal marker
`END`, not `C`: the regex evaluator has no `"true"`/`"false"` literals
(both fall through to a state-map lookup that misses), so no transition
matches. -/
theorem c1_counterexample :
    StateMachineEngine.evaluateTransitions 1000 10
      [⟨some "false", some "B"⟩, ⟨some "true", some "C"⟩]
      [("decisions", .vdict [])] [] = .ok "END" ∧ ("END" : String) ≠ "C" :=
  ⟨rfl, by decide⟩

/-- C1 (amended): transitions are evaluated in declaration order and
the first satisfied condition wins, but the always/never literals of
this evaluator are spelled `always`/`never`: for every agent response
and every run state, the transition list
`[{condition:"never", to:"B"}, {condition:"always", to:"C"}]` routes to
`C` and never to `B`. -/
theorem c1_theorem (f : Nat) (m : Int) (resp state : PyDict) :
    StateMachineEngine.evaluateTransitions (f + 1) m
      [⟨some "never", some "B"⟩, ⟨some "always", some "C"⟩] resp state = .ok "C" :=
  rfl

/-- C2 (counterexample): with `decisions = {x: 100}` and
`state = {x: 5}`, `evaluate("x == 100")` returns `false`, not `true` as
claimed: a comparison expression resolves its variable from the
run-scoped state map only, and on top of that the evaluator's
`replace("=", "==")` turns `==` into `====`, which matches no operator
branch. -/
theorem c2_counterexample :
    ConditionEvaluator.evaluate 1000 10 "x == 100"
      [("decisions", .vdict [("x", .vint 100)])] [("x", .vint 5)] = .ok false ∧
    (Except.ok false : Except PyErr Bool) ≠ .ok true :=
  ⟨rfl, by simp⟩

/-- C2 (amended): bare identifiers do resolve from the decision map
first (`evaluate("x")` is true via `decisions[x]=100`), but comparison
expressions resolve the variable from the run-scoped state map only,
and any comparison written `==` is mangled to `====` by the `=`
doubling and evaluates false; equality must be written with a single
`=`: with `decisions={x:100}`, `state={x:5}`, both `"x == 100"` and
`"x == 5"` are false, `"x = 5"` is true and `"x = 100"` is false. -/
theorem c2_theorem (f : Nat) :
    ConditionEvaluator.evaluate (f + 1) 10 "x == 100"
      [("decisions", .vdict [("x", .vint 100)])] [("x", .vint 5)] = .ok false ∧
    ConditionEvaluator.evaluate (f + 1) 10 "x == 5"
      [("decisions", .vdict [("x", .vint 100)])] [("x", .vint 5)] = .ok false ∧
    ConditionEvaluator.evaluate (f + 1) 10 "x = 5"
      [("decisions", .vdict [("x", .vint 100)])] [("x", .vint 5)] = .ok true ∧
    ConditionEvaluator.evaluate (f + 1) 10 "x = 100"
      [("decisions", .vdict [("x", .vint 100)])] [("x", .vint 5)] = .ok false ∧
    ConditionEvaluator.evaluate (f + 1) 10 "x"
      [("decisions", .vdict [("x", .vint 100)])] [("x", .vint 5)] = .ok true :=
  ⟨rfl, rfl, rfl, rfl, rfl⟩

/-- C5 (counterexample): with `a = false`, `b = false`, `c = true`,
the evaluator returns `false` on `"a AND b OR c"`, while boolean
algebra with precedence NOT > AND > OR gives `(a AND b) OR c = true`:
the compound evaluator splits at AND first, so AND binds LOOSER than
OR. -/
theorem c5_counterexample :
    ConditionEvaluator.evaluate 1000 10 "a AND b OR c"
      [("decisions", .vdict [("a", .vbool false), ("b", .vbool false), ("c", .vbool true)])] []
      = .ok false ∧ ((false && false) || true) = true :=
  ⟨rfl, rfl⟩

/-- C5 (amended): the compound evaluator splits the expression at
top-level AND before OR, so effectively OR binds tighter than AND:
for all booleans, `"a AND b OR c"` evaluates to `a AND (b OR c)` and
`"a OR b AND c"` to `(a OR b) AND c`; the spec's sample instance
(`a=false, b=true, c=false` on `"a OR b AND c"`) still yields `false`
because the two precedence readings agree there. -/
theorem c5_theorem (a b c : Bool) :
    ConditionEvaluator.evaluate 1000 10 "a AND b OR c"
      [("decisions", .vdict [("a", .vbool a), ("b", .vbool b), ("c", .vbool c)])] []
      = .ok (a && (b || c)) ∧
    ConditionEvaluator.evaluate 1000 10 "a OR b AND c"
      [("decisions", .vdict [("a", .vbool a), ("b", .vbool b), ("c", .vbool c)])] []
      = .ok ((a || b) && c) := by
  cases a <;> cases b <;> cases c <;> exact ⟨rfl, rfl⟩

/-- C8 (confirmed): the whole-expression keyword `max_turns_exceeded`
evaluates true iff the run's global turn counter (the `turn_count`
entry of the run-scoped state) is at least `max_turns`; equality at the
boundary yields true. -/
theorem c8_theorem (f : Nat) (m n : Int) (resp state : PyDict)
    (h : dictGet state "turn_count" = some (.vint n)) :
    ConditionEvaluator.evaluate (f + 1) m "max_turns_exceeded" resp state
      = .ok (decide (m ≤ n)) ∧
    (ConditionEvaluator.evaluate (f + 1) m "max_turns_exceeded" resp state
      = .ok true ↔ m ≤ n) := by
  have key : ConditionEvaluator.evaluate (f + 1) m "max_turns_exceeded" resp state
      = ConditionEvaluator.sysMaxTurnsExceeded state m := rfl
  have main : ConditionEvaluator.sysMaxTurnsExceeded state m = .ok (decide (m ≤ n)) := by
    unfold ConditionEvaluator.sysMaxTurnsExceeded
    rw [h]
    simp [ConditionEvaluator.pyNumQ, Rat.cast_le]
  refine ⟨key.trans main, ?_⟩
  rw [key, main]
  simp

/-- C8 (witness): at `max_turns = 5` and `turn_count = 5` (the
boundary), `max_turns_exceeded` is true. -/
theorem c8_witness :
    ConditionEvaluator.evaluate 1 5 "max_turns_exceeded" [] [("turn_count", PyVal.vint 5)]
      = .ok true :=
  (c8_theorem 0 5 5 [] [("turn_count", PyVal.vint 5)] rfl).2.mpr (by norm_num)

/-- C7 (counterexample): `evaluate` CAN raise to its caller: the
system condition `max_turns_exceeded` compares
`state.get("turn_count", 0) >= max_turns` with no enclosing
`try/except`, so a non-numeric stored `turn_count` raises `TypeError`
out of `evaluate` (the claim says evaluate never raises). -/
theorem c7_counterexample :
    ConditionEvaluator.evaluate 1000 10 "max_turns_exceeded"
      [("decisions", .vdict [])] [("turn_count", .vstr "oops")] = .error .typeError :=
  rfl

/-- C7 (amended): the legacy-identifier fallback applies only to
expressions that dodge every earlier branch: for every expression whose
stripped form is nonempty, is none of the four system-condition
keywords, is not a key of the decision map, contains no comparison
operator, contains no ` AND `/` OR `/` NOT ` token, and is not a custom
predicate name, `evaluate` returns (without raising) the truthiness of
the run-scoped state entry for the stripped expression — false when
absent.  (Expressions containing a comparison operator instead take the
state-expression branch, which returns false on a parse failure rather
than falling back to an identifier lookup; and the
system/custom-predicate branches can raise on type-mismatched
values, as the counterexample shows.) -/
theorem c7_theorem (f : Nat) (m : Int) (expr : String) (resp state : PyDict) (ds : PyDict)
    (h0 : expr ≠ "") (h0s : pyStrip expr ≠ "")
    (h1 : pyStrip expr ≠ "always") (h2 : pyStrip expr ≠ "never")
    (h3 : pyStrip expr ≠ "max_turns_exceeded") (h4 : pyStrip expr ≠ "error_occurred")
    (hd : (dictGet resp "decisions").getD (.vdict []) = .vdict ds)
    (h5 : dictGet ds (pyStrip expr) = none)
    (h6 : ConditionEvaluator.isStateExpression (pyStrip expr) = false)
    (h7 : ([" AND ", " OR ", " NOT "].any
      (fun op => containsSubL (pyUpperL (pyStrip expr).data) op.data)) = false)
    (h8 : pyStrip expr ≠ "complex_logic") (h9 : pyStrip expr ≠ "high_quality") :
    ConditionEvaluator.evaluate (f + 1) m expr resp state
      = .ok (pyTruthy ((dictGet state (pyStrip expr)).getD (.vbool false))) := by
  simp only [ConditionEvaluator.evaluate]
  rw [if_neg (by simp [h0, h0s])]
  simp only [hd, ConditionEvaluator.decisionsLookup, h5]
  simp [h1, h2, h3, h4, h6, h7, h8, h9]

/-- C7 (witness): an undefined bare flag named in the run-scoped state
evaluates to that entry's truthiness. -/
theorem c7_witness :
    ConditionEvaluator.evaluate 1 10 "undefined_flag" [("decisions", PyVal.vdict [])]
      [("undefined_flag", PyVal.vbool true)] = .ok true := by
  have h := c7_theorem 0 10 "undefined_flag" [("decisions", PyVal.vdict [])]
    [("undefined_flag", PyVal.vbool true)] [] (by decide) (by decide) (by decide) (by decide)
    (by decide) (by decide) rfl rfl rfl rfl (by decide) (by decide)
  exact h

/-! #### String lemmas for the response-parsing claim -/

theorem isPrefixL_refl (l : List Char) : isPrefixL l l = true := by
  induction l with
  | nil => rfl
  | cons c cs ih => simp [isPrefixL, ih]

theorem pyReplaceGo_nil (fuel : Nat) (pat repl : List Char) :
    pyReplaceGo fuel [] pat repl = [] := by
  cases fuel <;> rfl

theorem pyReplaceGo_self (fuel : Nat) (c : Char) (cs : List Char) :
    pyReplaceGo (fuel + 1) (c :: cs) (c :: cs) [] = [] := by
  have h : isPrefixL (c :: cs) (c :: cs) = true := isPrefixL_refl _
  simp only [pyReplaceGo, h, if_pos, List.drop_length, List.nil_append]
  exact pyReplaceGo_nil _ _ _

theorem pyReplaceGo_append (c : Char) (p : List Char) :
    ∀ (fuel : Nat) (rest pat repl : List Char),
    pat.head? = some c → c ∉ p → p.length + rest.length < fuel →
    pyReplaceGo fuel (p ++ rest) pat repl = p ++ pyReplaceGo (fuel - p.length) rest pat repl := by
  induction p with
  | nil =>
    intro fuel rest pat repl _ _ _
    simp
  | cons a p' ih =>
    intro fuel rest pat repl hpat hmem hfuel
    have ha : a ≠ c := by
      intro h
      exact hmem (h ▸ List.mem_cons_self a p')
    cases fuel with
    | zero => omega
    | succ f =>
      cases pat with
      | nil => simp at hpat
      | cons q qs =>
        have hq : q = c := by simpa using hpat
        have hnp : isPrefixL (q :: qs) (a :: (p' ++ rest)) = false := by
          subst hq
          simp [isPrefixL, Ne.symm ha]
        have hmem' : c ∉ p' := fun h => hmem (List.mem_cons_of_mem a h)
        simp only [List.cons_append, pyReplaceGo, hnp, Bool.false_eq_true, if_false]
        rw [ih f rest (q :: qs) repl hpat hmem'
          (by simp only [List.length_cons] at hfuel; omega)]
        simp [Nat.succ_sub_succ]

theorem pyReplaceL_append_self (p o : List Char) (c : Char)
    (ho : o.head? = some c) (hp : c ∉ p) :
    pyReplaceL (p ++ o) o [] = p := by
  unfold pyReplaceL
  have hlen : (p ++ o).length + 1 = p.length + (o.length + 1) := by
    simp [Nat.add_assoc]
  rw [hlen, pyReplaceGo_append c p (p.length + (o.length + 1)) o o [] ho hp (by omega)]
  have h2 : p.length + (o.length + 1) - p.length = o.length + 1 := by omega
  rw [h2]
  cases o with
  | nil => simp at ho
  | cons x xs => rw [pyReplaceGo_self]; simp

theorem idxOfFirst_append (p l : List Char) (c : Char) (hp : c ∉ p)
    (hl : l.head? = some c) : idxOfFirst (p ++ l) c = some p.length := by
  induction p with
  | nil =>
    cases l with
    | nil => simp at hl
    | cons x xs =>
      have hx : x = c := by simpa using hl
      simp [idxOfFirst, hx]
  | cons a p' ih =>
    have ha : ¬ (a = c) := fun h => hp (h ▸ List.mem_cons_self a p')
    have hp' : c ∉ p' := fun h => hp (List.mem_cons_of_mem a h)
    simp [idxOfFirst, ha, ih hp']

theorem idxOfLast_of_rev (l : List Char) (c : Char) (h : l.reverse.head? = some c) :
    idxOfLast l c = some (l.length - 1) := by
  unfold idxOfLast
  cases hr : l.reverse with
  | nil => rw [hr] at h; simp at h
  | cons x xs =>
    rw [hr] at h
    have hx : x = c := by simpa using h
    simp [idxOfFirst, hx]

theorem braceSearch_append (p o : List Char) (hp : '{' ∉ p)
    (ho1 : o.head? = some '{') (ho2 : o.reverse.head? = some '}') :
    braceSearch (p ++ o) = some o := by
  have h2 : 2 ≤ o.length := by
    cases o with
    | nil => simp at ho1
    | cons x xs =>
      cases xs with
      | nil =>
        have hx : x = '{' := by simpa using ho1
        have hy : x = '}' := by simpa using ho2
        rw [hx] at hy
        exact absurd hy (by decide)
      | cons y ys => simp
  have hrev : (p ++ o).reverse.head? = some '}' := by
    rw [List.reverse_append]
    cases hr : o.reverse with
    | nil => rw [hr] at ho2; simp at ho2
    | cons x xs =>
      rw [hr] at ho2
      have hx : x = '}' := by simpa using ho2
      simp [hx]
  unfold braceSearch
  rw [idxOfFirst_append p o '{' hp ho1, idxOfLast_of_rev _ _ hrev]
  simp only [List.length_append]
  rw [if_pos (by omega)]
  have harith : p.length + o.length - 1 - p.length + 1 = o.length := by omega
  rw [List.drop_left, harith, List.take_length]

/-! #### Dictionary lemmas -/

theorem dictGet_set_self (d : PyDict) (k : String) (v : PyVal) :
    dictGet (dictSet d k v) k = some v := by
  induction d with
  | nil => simp [dictSet, dictGet]
  | cons kv rest ih =>
    show dictGet (kv :: dictSet rest k v) k = some v
    simp [dictGet, ih]

theorem dictGet_set_ne (d : PyDict) (k k' : String) (v : PyVal) (h : k' ≠ k) :
    dictGet (dictSet d k v) k' = dictGet d k' := by
  induction d with
  | nil => simp [dictSet, dictGet, Ne.symm h]
  | cons kv rest ih =>
    show dictGet (kv :: dictSet rest k v) k' = dictGet (kv :: rest) k'
    simp only [dictGet, ih]

theorem dictGet_update_ne (ds : PyDict) (d : PyDict) (k : String)
    (h : ∀ kv ∈ ds, kv.1 ≠ k) : dictGet (dictUpdate d ds) k = dictGet d k := by
  induction ds generalizing d with
  | nil => rfl
  | cons kv rest ih =>
    show dictGet (dictUpdate (dictSet d kv.1 kv.2) rest) k = dictGet d k
    rw [ih (dictSet d kv.1 kv.2) (fun x hx => h x (List.mem_cons_of_mem kv hx))]
    exact dictGet_set_ne d kv.1 k kv.2 (Ne.symm (h kv (List.mem_cons_self kv rest)))

/-- C6 (counterexample): the strict parser uses ONE greedy
first-`{`-to-last-`}` regex match, not a scan preferring later
candidates: prose containing a `{` before the trailing decision object
makes the match span the prose braces, the decode fails, and parsing
raises `AgentError` — even though the text contains exactly one
trailing well-formed decisions object (second conjunct). -/
theorem c6_counterexample :
    LangGraphEngine.parseAgentResponse "note \x7bx\x7d \x7b\"decisions\": \x7b\x7d\x7d"
      = .error "AgentError: invalid JSON in response" ∧
    jsonLoads "\x7b\"decisions\": \x7b\x7d\x7d".data = some (.vdict [("decisions", .vdict [])]) :=
  ⟨rfl, rfl⟩

/-- C6 (amended): for every response text made of prose containing no
opening brace followed by one trailing well-formed JSON object (first
character `{`, last character `}`) that decodes to a mapping with a
`decisions` key, strict parsing succeeds, extracts exactly that
object's decisions, and — when the object has no `content` field — the
returned content is the original text with the object's substring
removed and trimmed, falling back to the whole raw text when that
remainder is empty. -/
theorem c6_theorem (p o : List Char) (fields : PyDict)
    (hp : '{' ∉ p)
    (ho1 : o.head? = some '{') (ho2 : o.reverse.head? = some '}')
    (hj : jsonLoads o = some (.vdict fields))
    (hd : (dictGet fields "decisions").isSome) :
    ∃ out : PyDict,
      LangGraphEngine.parseAgentResponse ⟨p ++ o⟩ = .ok out ∧
      dictGet out "decisions" = dictGet fields "decisions" ∧
      (dictGet fields "content" = none →
        dictGet out "content" =
          some (.vstr (if pyStripL p = [] then (⟨p ++ o⟩ : String) else (⟨pyStripL p⟩ : String)))) := by
  have hbs : braceSearch (String.mk (p ++ o)).data = some o := braceSearch_append p o hp ho1 ho2
  have hrep : pyReplaceL (String.mk (p ++ o)).data o [] = p :=
    pyReplaceL_append_self p o '{' ho1 hp
  obtain ⟨dv, hdv⟩ := Option.isSome_iff_exists.mp hd
  have step : LangGraphEngine.parseAgentResponse ⟨p ++ o⟩ =
      (let parsed1 :=
        if (dictGet fields "content").isSome then fields
        else dictSet fields "content" (.vstr ⟨pyStripL p⟩)
       let parsed2 :=
        if pyTruthy ((dictGet parsed1 "content").getD .vnone) then parsed1
        else dictSet parsed1 "content" (.vstr ⟨p ++ o⟩)
       Except.ok parsed2) := by
    simp only [LangGraphEngine.parseAgentResponse, hbs, hj, hdv, Option.isNone_some,
      Bool.false_eq_true, if_false, hrep]
    rfl
  cases hov : dictGet fields "content" with
  | some v =>
    rw [hov] at step
    simp only [Option.isSome_some, if_true] at step
    by_cases htv : pyTruthy ((dictGet fields "content").getD .vnone) = true
    · rw [htv] at step
      simp only [if_true] at step
      refine ⟨fields, step, rfl, ?_⟩
      intro hcon
      simp [hov] at hcon
    · rw [eq_false_of_ne_true htv] at step
      simp only [Bool.false_eq_true, if_false] at step
      refine ⟨dictSet fields "content" (.vstr ⟨p ++ o⟩), step, ?_, ?_⟩
      · exact dictGet_set_ne fields "content" "decisions" _ (by decide)
      · intro hcon
        simp [hov] at hcon
  | none =>
    rw [hov] at step
    simp only [Option.isSome_none, Bool.false_eq_true, if_false] at step
    rw [dictGet_set_self fields "content" (.vstr ⟨pyStripL p⟩)] at step
    by_cases hps : pyStripL p = []
    · have hfal : pyTruthy ((some (PyVal.vstr ⟨pyStripL p⟩)).getD .vnone) = false := by
        simp [pyTruthy, hps]
      rw [hfal] at step
      simp only [Bool.false_eq_true, if_false] at step
      refine ⟨dictSet (dictSet fields "content" (.vstr ⟨pyStripL p⟩)) "content" (.vstr ⟨p ++ o⟩),
        step, ?_, fun _ => ?_⟩
      · rw [dictGet_set_ne _ _ _ _ (by decide), dictGet_set_ne _ _ _ _ (by decide)]
      · rw [dictGet_set_self, if_pos hps]
    · have htru : pyTruthy ((some (PyVal.vstr ⟨pyStripL p⟩)).getD .vnone) = true := by
        simp only [Option.getD_some, pyTruthy]
        simp only [ne_eq, decide_eq_true_eq]
        intro hmk
        exact hps (by
          have := congrArg String.data hmk
          simpa using this)
      rw [htru] at step
      simp only [if_true] at step
      refine ⟨dictSet fields "content" (.vstr ⟨pyStripL p⟩), step, ?_, fun _ => ?_⟩
      · exact dictGet_set_ne fields "content" "decisions" _ (by decide)
      · rw [dictGet_set_self, if_neg hps]

/-- C6 (witness): prose (no braces) followed by a trailing decisions
object parses to that object's decisions with the prose, trimmed, as
content. -/
theorem c6_witness :
    ∃ out : PyDict,
      LangGraphEngine.parseAgentResponse ⟨"I agree. ".data ++ "\x7b\"decisions\": \x7b\"ok\": true\x7d\x7d".data⟩
        = .ok out ∧
      dictGet out "decisions" = dictGet [("decisions", PyVal.vdict [("ok", PyVal.vbool true)])] "decisions" ∧
      (dictGet [("decisions", PyVal.vdict [("ok", PyVal.vbool true)])] "content" = none →
        dictGet out "content" =
          some (.vstr (if pyStripL "I agree. ".data = []
            then (⟨"I agree. ".data ++ "\x7b\"decisions\": \x7b\"ok\": true\x7d\x7d".data⟩ : String)
            else (⟨pyStripL "I agree. ".data⟩ : String)))) :=
  c6_theorem "I agree. ".data "\x7b\"decisions\": \x7b\"ok\": true\x7d\x7d".data
    [("decisions", PyVal.vdict [("ok", PyVal.vbool true)])]
    (by decide) rfl rfl rfl rfl

/-! #### Engine-loop lemmas -/

theorem invokeSteps_le (cfg : WorkflowConfig) (oracle : String → String → Except String String)
    (evalFn : LangGraphEngine.CondEval) (guide : String) :
    ∀ (fuel : Nat) (cur : String) (st : LangGraphEngine.WState),
    LangGraphEngine.invokeSteps cfg oracle evalFn guide fuel cur st ≤ fuel := by
  intro fuel
  induction fuel with
  | zero => intro cur st; simp [LangGraphEngine.invokeSteps]
  | succ f ih =>
    intro cur st
    unfold LangGraphEngine.invokeSteps
    cases hm : stateMapGet cfg.states cur with
    | none => simp [hm]
    | some sc =>
      simp only [hm]
      by_cases he : sc.transitions.isEmpty
      · simp [he]
      · simp only [he, Bool.false_eq_true, if_false]
        by_cases hr : (LangGraphEngine.router cfg.maxTurns cfg.exitConditions evalFn
            sc.transitions (LangGraphEngine.agentNode sc.agent sc.name sc.prompt guide oracle st)).2 = "END"
        · simp [hr]
        · simp only [hr, if_false]
          have := ih (LangGraphEngine.router cfg.maxTurns cfg.exitConditions evalFn
            sc.transitions (LangGraphEngine.agentNode sc.agent sc.name sc.prompt guide oracle st)).2
            (LangGraphEngine.router cfg.maxTurns cfg.exitConditions evalFn
            sc.transitions (LangGraphEngine.agentNode sc.agent sc.name sc.prompt guide oracle st)).1
          omega

/-- C3 (confirmed): the engine executes LangGraph with
`recursion_limit = max_turns * 3`, so a run performs at most
`3 * maxTurns` node executions regardless of business exit conditions;
and whenever the invocation aborts on that ceiling (or any other
invocation exception), `execute` returns `success = false` with the
error recorded — never an unbounded loop, never a success. -/
theorem c3_theorem (cfg : WorkflowConfig) (oracle : String → String → Except String String)
    (evalFn : LangGraphEngine.CondEval) (guide start workflowName initialMessage : String) :
    LangGraphEngine.invokeSteps cfg oracle evalFn guide (3 * cfg.maxTurns).toNat start
      (LangGraphEngine.createInitialState workflowName initialMessage) ≤ (3 * cfg.maxTurns).toNat ∧
    (∀ msg, LangGraphEngine.invoke cfg oracle evalFn guide (3 * cfg.maxTurns).toNat start
        (LangGraphEngine.createInitialState workflowName initialMessage) = .error msg →
      (LangGraphEngine.execute cfg oracle evalFn guide start workflowName initialMessage).success
          = false ∧
      (LangGraphEngine.execute cfg oracle evalFn guide start workflowName initialMessage).metaError
          = some msg) := by
  refine ⟨invokeSteps_le cfg oracle evalFn guide _ _ _, ?_⟩
  intro msg h
  simp [LangGraphEngine.execute, h]

/-- C3 (witness): a one-state self-loop whose agent always fails (so
`total_turns` never advances and the `max_turns` stop never fires) hits
the `3 * max_turns = 3` recursion ceiling and ends unsuccessful. -/
theorem c3_witness :
    LangGraphEngine.invokeSteps loopConfig failingOracle alwaysTrueEval ""
      (3 * loopConfig.maxTurns).toNat "A" (LangGraphEngine.createInitialState "w" "m")
      ≤ (3 * loopConfig.maxTurns).toNat ∧
    (LangGraphEngine.execute loopConfig failingOracle alwaysTrueEval "" "A" "w" "m").success
      = false := by
  have h := c3_theorem loopConfig failingOracle alwaysTrueEval "" "A" "w" "m"
  exact ⟨h.1, (h.2 "GraphRecursionError" rfl).1⟩

theorem agentNode_error_isSome (agentName stateName tmpl guide : String)
    (oracle : String → String → Except String String) (st : LangGraphEngine.WState)
    (h : st.error.isSome) :
    ((LangGraphEngine.agentNode agentName stateName tmpl guide oracle st).error).isSome := by
  unfold LangGraphEngine.agentNode
  rcases hr : LangGraphEngine.renderPrompt tmpl guide st with e | prompt
  · simp [hr]
  · rcases ho : oracle agentName prompt with e | response
    · simp [hr, ho]
    · rcases hp : LangGraphEngine.parseAgentResponse response with e | parsed
      · simp [hr, ho, hp]
      · simpa [hr, ho, hp] using h

theorem routerLoop_error_eq (evalFn : LangGraphEngine.CondEval)
    (transitions : List TransitionCfg) (ar cs ss : PyDict) (st : LangGraphEngine.WState) :
    ((LangGraphEngine.routerLoop evalFn transitions ar cs ss st).1).error = st.error := by
  induction transitions with
  | nil => rfl
  | cons t ts ih =>
    unfold LangGraphEngine.routerLoop
    rcases hev : evalFn (t.condition.getD "true") ar cs ss with e | b
    · simp only [hev]
      exact ih
    · cases b
      · simp only [hev]
        exact ih
      · simp only [hev]
        by_cases hc : st.lastAgent ≠ "" ∧ t.toState.getD "END" ≠ "END"
        · rw [if_pos hc]
        · rw [if_neg hc]

theorem router_error_eq (maxT : Int) (exits : List (Option String))
    (evalFn : LangGraphEngine.CondEval) (transitions : List TransitionCfg)
    (st : LangGraphEngine.WState) :
    ((LangGraphEngine.router maxT exits evalFn transitions st).1).error = st.error := by
  unfold LangGraphEngine.router
  by_cases hx : LangGraphEngine.checkGlobalExitConditions maxT exits evalFn st = true
  · simp [hx]
  · simp only [hx, Bool.false_eq_true, if_false]
    exact routerLoop_error_eq evalFn transitions _ _ _ st

theorem invoke_error_persists (cfg : WorkflowConfig)
    (oracle : String → String → Except String String) (evalFn : LangGraphEngine.CondEval)
    (guide : String) :
    ∀ (fuel : Nat) (cur : String) (st fs : LangGraphEngine.WState),
    st.error.isSome → LangGraphEngine.invoke cfg oracle evalFn guide fuel cur st = .ok fs →
    fs.error.isSome := by
  intro fuel
  induction fuel with
  | zero => intro cur st fs _ h2; cases h2
  | succ f ih =>
    intro cur st fs h h2
    unfold LangGraphEngine.invoke at h2
    cases hm : stateMapGet cfg.states cur with
    | none => rw [hm] at h2; cases h2
    | some sc =>
      simp only [hm] at h2
      have hn : ((LangGraphEngine.agentNode sc.agent sc.name sc.prompt guide oracle st).error).isSome :=
        agentNode_error_isSome sc.agent sc.name sc.prompt guide oracle st h
      by_cases he : sc.transitions.isEmpty
      · rw [if_pos he] at h2
        cases h2
        exact hn
      · rw [if_neg he] at h2
        have hre : ((LangGraphEngine.router cfg.maxTurns cfg.exitConditions evalFn sc.transitions
            (LangGraphEngine.agentNode sc.agent sc.name sc.prompt guide oracle st)).1).error.isSome := by
          rw [router_error_eq]
          exact hn
        by_cases hend : (LangGraphEngine.router cfg.maxTurns cfg.exitConditions evalFn
            sc.transitions (LangGraphEngine.agentNode sc.agent sc.name sc.prompt guide oracle st)).2 = "END"
        · rw [if_pos hend] at h2
          cases h2
          exact hre
        · rw [if_neg hend] at h2
          exact ih _ _ fs hre h2

/-- C4 (counterexample): a run whose single state's agent call fails
produces `success = false` with the error in the result metadata, but
the caller-facing `WorkflowResult.errorMessage` stays `None` — the
success-path wrapper (`ConfigWorkflow.execute` lines 95–101) never
passes `error_message` — contradicting the claim that errorMessage is
set. -/
theorem c4_counterexample :
    (ConfigWorkflow.execute singleStateConfig failingOracle alwaysFalseEval "" "wf" "start").success
      = false ∧
    (ConfigWorkflow.execute singleStateConfig failingOracle alwaysFalseEval "" "wf" "start").errorMessage
      = none ∧
    (ConfigWorkflow.execute singleStateConfig failingOracle alwaysFalseEval "" "wf" "start").metaError
      = some "boom" :=
  ⟨rfl, rfl, rfl⟩

/-- C4 (amended): a failed agent invocation or a strict-parse failure
populates the step's `error`/`error_state` fields; once the final state
carries an error the caller receives a `WorkflowResult` with
`success = false` and the error in its metadata, never a raised
exception — but `errorMessage` remains unset on this path (it is only
populated when the workflow wrapper itself catches an exception), and
the step loop does not necessarily exit at the failing state (routing
continues until a terminal transition, a global exit, or the recursion
ceiling). -/
theorem c4_theorem :
    (∀ (agentName stateName tmpl guide prompt msg : String)
        (oracle : String → String → Except String String) (st : LangGraphEngine.WState),
      LangGraphEngine.renderPrompt tmpl guide st = .ok prompt →
      oracle agentName prompt = .error msg →
      (LangGraphEngine.agentNode agentName stateName tmpl guide oracle st).error = some msg ∧
      (LangGraphEngine.agentNode agentName stateName tmpl guide oracle st).errorState
        = some stateName) ∧
    (∀ (agentName stateName tmpl guide prompt response msg : String)
        (oracle : String → String → Except String String) (st : LangGraphEngine.WState),
      LangGraphEngine.renderPrompt tmpl guide st = .ok prompt →
      oracle agentName prompt = .ok response →
      LangGraphEngine.parseAgentResponse response = .error msg →
      (LangGraphEngine.agentNode agentName stateName tmpl guide oracle st).error = some msg ∧
      (LangGraphEngine.agentNode agentName stateName tmpl guide oracle st).errorState
        = some stateName) ∧
    (∀ (cfg : WorkflowConfig) (oracle : String → String → Except String String)
        (evalFn : LangGraphEngine.CondEval) (guide workflowName initialMessage start : String)
        (fs : LangGraphEngine.WState) (msg : String),
      getStartState cfg.states = some start →
      LangGraphEngine.invoke cfg oracle evalFn guide (3 * cfg.maxTurns).toNat start
        (LangGraphEngine.createInitialState workflowName initialMessage) = .ok fs →
      fs.error = some msg →
      (ConfigWorkflow.execute cfg oracle evalFn guide workflowName initialMessage).success
          = false ∧
      (ConfigWorkflow.execute cfg oracle evalFn guide workflowName initialMessage).metaError
          = some msg ∧
      (ConfigWorkflow.execute cfg oracle evalFn guide workflowName initialMessage).errorMessage
          = none) := by
  refine ⟨?_, ?_, ?_⟩
  · intro agentName stateName tmpl guide prompt msg oracle st h1 h2
    constructor <;> simp [LangGraphEngine.agentNode, h1, h2]
  · intro agentName stateName tmpl guide prompt response msg oracle st h1 h2 h3
    constructor <;> simp [LangGraphEngine.agentNode, h1, h2, h3]
  · intro cfg oracle evalFn guide workflowName initialMessage start fs msg hs hi he
    simp [ConfigWorkflow.execute, hs, LangGraphEngine.execute, hi,
      LangGraphEngine.buildResult, he]

/-- C4 (witness): the failing single-state run — node error fields set,
final result unsuccessful with the error in metadata and no
`errorMessage`, all without an exception escaping. -/
theorem c4_witness :
    (LangGraphEngine.agentNode "coder" "A" "" "" failingOracle
      (LangGraphEngine.createInitialState "wf" "start")).error = some "boom" ∧
    (ConfigWorkflow.execute singleStateConfig failingOracle alwaysTrueEval "" "wf" "start").success
      = false ∧
    (ConfigWorkflow.execute singleStateConfig failingOracle alwaysTrueEval "" "wf" "start").errorMessage
      = none := by
  have h := c4_theorem
  refine ⟨(h.1 "coder" "A" "" "" "" "boom" failingOracle
    (LangGraphEngine.createInitialState "wf" "start") rfl rfl).1, ?_, ?_⟩
  · exact (h.2.2 singleStateConfig failingOracle alwaysTrueEval "" "wf" "start" "A" _ "boom"
      rfl rfl rfl).1
  · exact (h.2.2 singleStateConfig failingOracle alwaysTrueEval "" "wf" "start" "A" _ "boom"
      rfl rfl rfl).2.2

theorem routerLoop_spec (evalFn : LangGraphEngine.CondEval) (transitions : List TransitionCfg)
    (ar cs ss : PyDict) (st : LangGraphEngine.WState) :
    ((LangGraphEngine.routerLoop evalFn transitions ar cs ss st).2 ≠ "END" ∧ st.lastAgent ≠ "" →
      (LangGraphEngine.routerLoop evalFn transitions ar cs ss st).1 =
        LangGraphEngine.bumpEdge st (LangGraphEngine.routerLoop evalFn transitions ar cs ss st).2) ∧
    ((LangGraphEngine.routerLoop evalFn transitions ar cs ss st).2 = "END" ∨ st.lastAgent = "" →
      (LangGraphEngine.routerLoop evalFn transitions ar cs ss st).1 = st) := by
  induction transitions with
  | nil =>
    constructor
    · rintro ⟨hne, _⟩
      exact absurd rfl hne
    · intro _
      rfl
  | cons t ts ih =>
    rcases hev : evalFn (t.condition.getD "true") ar cs ss with e | b
    · simp only [LangGraphEngine.routerLoop, hev]
      exact ih
    · cases b
      · simp only [LangGraphEngine.routerLoop, hev]
        exact ih
      · simp only [LangGraphEngine.routerLoop, hev]
        by_cases hc : st.lastAgent ≠ "" ∧ t.toState.getD "END" ≠ "END"
        · rw [if_pos hc]
          constructor
          · rintro ⟨_, _⟩
            simp [LangGraphEngine.bumpEdge]
          · rintro (hEnd | hla)
            · exact absurd hEnd hc.2
            · exact absurd hla hc.1
        · rw [if_neg hc]
          constructor
          · rintro ⟨hne, hla⟩
            rcases not_and_or.mp hc with h1 | h2
            · exact absurd (not_not.mp h1) hla
            · exact absurd (not_not.mp h2) hne
          · intro _
            rfl

/-- C9 (confirmed): the per-edge counter keyed by
`(last_agent, target)` changes only inside the router, exactly when a
transition to a non-terminal target fires with a nonempty `last_agent`,
and then by exactly `+1`; routing to `END` (explicit target, global
exit, or fall-through) and the agent node itself leave every per-edge
counter untouched.  Running the `A→B` edge three times and then exiting
to the terminal marker leaves `turn_count_A_B = 3` and creates no entry
for the terminal transition. -/
theorem c9_theorem :
    (∀ (maxT : Int) (exits : List (Option String)) (evalFn : LangGraphEngine.CondEval)
        (transitions : List TransitionCfg) (st : LangGraphEngine.WState),
      ((LangGraphEngine.router maxT exits evalFn transitions st).2 ≠ "END" ∧ st.lastAgent ≠ "" →
        (LangGraphEngine.router maxT exits evalFn transitions st).1 =
          LangGraphEngine.bumpEdge st (LangGraphEngine.router maxT exits evalFn transitions st).2) ∧
      ((LangGraphEngine.router maxT exits evalFn transitions st).2 = "END" ∨ st.lastAgent = "" →
        (LangGraphEngine.router maxT exits evalFn transitions st).1 = st)) ∧
    (∀ (agentName stateName tmpl guide : String)
        (oracle : String → String → Except String String) (st : LangGraphEngine.WState),
      (LangGraphEngine.agentNode agentName stateName tmpl guide oracle st).edgeTurns
        = st.edgeTurns) ∧
    (LangGraphEngine.edgeGet edgeScenario.1.edgeTurns "turn_count_A_B" = some 3 ∧
     LangGraphEngine.edgeGet edgeScenario.1.edgeTurns "turn_count_A_END" = none ∧
     edgeScenario.2 = "END") := by
  refine ⟨?_, ?_, rfl, rfl, rfl⟩
  · intro maxT exits evalFn transitions st
    unfold LangGraphEngine.router
    by_cases hx : LangGraphEngine.checkGlobalExitConditions maxT exits evalFn st = true
    · simp only [hx, if_true]
      constructor
      · rintro ⟨hne, _⟩
        exact absurd rfl hne
      · intro _
        trivial
    · simp only [hx, Bool.false_eq_true, if_false]
      exact routerLoop_spec evalFn transitions _ _ _ st
  · intro agentName stateName tmpl guide oracle st
    unfold LangGraphEngine.agentNode
    rcases hr : LangGraphEngine.renderPrompt tmpl guide st with e | prompt
    · simp [hr]
    · rcases ho : oracle agentName prompt with e | response
      · simp [hr, ho]
      · rcases hp : LangGraphEngine.parseAgentResponse response with e | parsed
        · simp [hr, ho, hp]
        · simp [hr, ho, hp]

/-- C9 (witness): one firing of the `A→B` edge bumps exactly the
`turn_count_A_B` counter from absent to 1. -/
theorem c9_witness :
    (LangGraphEngine.router 10 [] (edgeEval true) edgeTransitions edgeStart).1 =
      { edgeStart with edgeTurns := [("turn_count_A_B", 1)] } := by
  have h := ((c9_theorem.1 10 [] (edgeEval true) edgeTransitions edgeStart).1)
    ⟨by decide, by decide⟩
  rw [h]
  rfl

theorem dictGet_update_set (g : PyDict) (k0 k : String) (v : PyVal) (ds : PyDict)
    (h1 : ∀ kv ∈ ds, kv.1 ≠ k) (h2 : k ≠ k0) :
    dictGet (dictUpdate (dictSet g k0 v) ds) k = dictGet g k := by
  rw [dictGet_update_ne ds _ _ h1, dictGet_set_ne _ _ _ _ h2]

/-- C10 (counterexample): the state-machine engine MERGES each step's
decisions into the run-scoped state (`global_state.update(decisions)`),
so a decisions key `turn_count` breaks the invariant: one successful
step with decisions `{turn_count: 99}` leaves the counter at 100 while
the execution history has exactly 1 entry. -/
theorem c10_counterexample :
    ∃ g' : PyDict,
      StateMachineEngine.step 1000 singleStateConfig clobberingOracle "" "" "A"
        (StateMachineEngine.initGlobalState []) = .ok (g', some "END") ∧
      dictGet g' "turn_count" = some (.vint 100) ∧
      histLength g' = 1 ∧ (100 : Int) ≠ 1 :=
  ⟨_, rfl, rfl, rfl, by decide⟩

/-- C10 (amended): every successfully executed state whose parsed
decisions avoid the engine-reserved keys (`turn_count`,
`execution_history`, `agent_responses` — which the state-machine
engine's decision merge would otherwise clobber) appends exactly one
entry to the execution history, appends exactly one agent-response
record, and increments the global turn counter by exactly one, leaving
all previously appended entries in place; hence `turn_count` stays
equal to the history length when it was equal before. -/
theorem c10_theorem (fuel : Nat) (cfg : WorkflowConfig)
    (oracle : String → String → Except PyErr String) (guide im cur : String) (g : PyDict)
    (sc : StateCfg) (prompt response : String) (pr ds : PyDict)
    (rl hl : List PyVal) (n : Int) (g' : PyDict) (tgt : String)
    (hex : StateMachineEngine.checkGlobalExitConditions fuel cfg.maxTurns cfg.exitConditions g
      = .ok false)
    (hsc : stateMapGet cfg.states cur = some sc)
    (hrp : StateMachineEngine.renderPrompt sc.prompt im guide g = .ok prompt)
    (hor : oracle sc.agent prompt = .ok response)
    (hpr : StateMachineEngine.parseAgentResponse response = .vdict pr)
    (hds : dictGet pr "decisions" = some (.vdict ds))
    (hres : ∀ kv ∈ ds,
      kv.1 ≠ "turn_count" ∧ kv.1 ≠ "execution_history" ∧ kv.1 ≠ "agent_responses")
    (hrl : dictGet g "agent_responses" = some (.vlist rl))
    (hhl : dictGet g "execution_history" = some (.vlist hl))
    (htc : dictGet g "turn_count" = some (.vint n))
    (hstep : StateMachineEngine.step fuel cfg oracle guide im cur g = .ok (g', some tgt)) :
    dictGet g' "turn_count" = some (.vint (n + 1)) ∧
    (∃ e, dictGet g' "execution_history" = some (.vlist (hl ++ [e]))) ∧
    (∃ r, dictGet g' "agent_responses" = some (.vlist (rl ++ [r]))) := by
  have hres_tc : ∀ kv ∈ ds, kv.1 ≠ "turn_count" := fun kv hk => (hres kv hk).1
  have hres_eh : ∀ kv ∈ ds, kv.1 ≠ "execution_history" := fun kv hk => (hres kv hk).2.1
  have hres_ar : ∀ kv ∈ ds, kv.1 ≠ "agent_responses" := fun kv hk => (hres kv hk).2.2
  have hg2tc : ∀ v : PyVal,
      dictGet (dictUpdate (dictSet g "agent_responses" v) ds) "turn_count"
        = some (.vint n) := fun v => by
    rw [dictGet_update_set g "agent_responses" "turn_count" v ds hres_tc (by decide), htc]
  have hg2eh : ∀ v : PyVal,
      dictGet (dictUpdate (dictSet g "agent_responses" v) ds) "execution_history"
        = some (.vlist hl) := fun v => by
    rw [dictGet_update_set g "agent_responses" "execution_history" v ds hres_eh (by decide), hhl]
  have hg4tc : ∀ v1 v2 v3 : PyVal,
      dictGet (dictSet (dictSet (dictUpdate (dictSet g "agent_responses" v1) ds)
        "execution_history" v2) "current_state" v3) "turn_count" = some (.vint n) :=
    fun v1 v2 v3 => by
      rw [dictGet_set_ne _ _ _ _ (by decide), dictGet_set_ne _ _ _ _ (by decide), hg2tc]
  unfold StateMachineEngine.step at hstep
  simp only [hex, hsc, hrp, hor, hpr, hds, Option.getD_some, StateMachineEngine.listAppendAt,
    StateMachineEngine.updateDecisions, hrl, hg2tc, hg2eh] at hstep
  split at hstep
  · simp at hstep
  · simp only [StateMachineEngine.incTurnCount, hg4tc, Except.ok.injEq, Prod.mk.injEq,
      Option.some.injEq] at hstep
    obtain ⟨hg', htgt⟩ := hstep
    subst hg'
    refine ⟨dictGet_set_self _ _ _,
      ⟨PyVal.vdict [("state", PyVal.vstr cur), ("agent", PyVal.vstr sc.agent),
        ("decisions", PyVal.vdict ds), ("turn_count", PyVal.vint n)], ?_⟩,
      ⟨PyVal.vdict [("state", PyVal.vstr cur), ("agent", PyVal.vstr sc.agent),
        ("response", PyVal.vdict pr)], ?_⟩⟩
    · rw [dictGet_set_ne _ _ _ _ (by decide), dictGet_set_ne _ _ _ _ (by decide),
        dictGet_set_self]
    · rw [dictGet_set_ne _ _ _ _ (by decide), dictGet_set_ne _ _ _ _ (by decide),
        dictGet_set_ne _ _ _ _ (by decide), dictGet_update_ne ds _ _ hres_ar,
        dictGet_set_self]

/-- C10 (witness): a well-behaved step (decisions `{confirmed: true}`)
from the freshly initialised state appends one history entry and one
response record and moves the counter from 0 to 1. -/
theorem c10_witness :
    ∃ g2 : PyDict,
      StateMachineEngine.step 1000 singleStateConfig confirmingOracle "" "" "A"
        (StateMachineEngine.initGlobalState []) = .ok (g2, some "END") ∧
      dictGet g2 "turn_count" = some (.vint (0 + 1)) ∧
      (∃ e, dictGet g2 "execution_history" = some (.vlist ([] ++ [e]))) := by
  have h := c10_theorem 1000 singleStateConfig confirmingOracle "" "" "A"
    (StateMachineEngine.initGlobalState []) ⟨"A", "coder", "", false, []⟩ ""
    "done \x7b\"decisions\": \x7b\"confirmed\": true\x7d\x7d"
    [("decisions", PyVal.vdict [("confirmed", PyVal.vbool true)])]
    [("confirmed", PyVal.vbool true)] [] [] 0 _ "END"
    rfl rfl rfl rfl rfl rfl
    (by
      intro kv hk
      simp only [List.mem_singleton] at hk
      subst hk
      exact ⟨by decide, by decide, by decide⟩)
    rfl rfl rfl rfl
  exact ⟨_, rfl, h.1, h.2.1⟩
